import Mathlib

/-!
Shallow embedding of the Know-Law server (`server.js`): the session/identity
endpoints, conversation/message CRUD, the booking endpoint, the multer upload
pipeline, and the response generator (ChatGPT delegation with rule-based
fallback).  SQLite tables are lists of rows; `CURRENT_TIMESTAMP` is the `now`
field of the database state; the external OpenAI call is a parameter
`openaiCreate : List ChatMsg → Option String` (`none` models any thrown
failure: missing network, auth error, rate limit), and `bcrypt.hash` is a
parameter `hash : String → String`.
-/

/-- JS `String.prototype.includes`: substring containment test. -/
def jsIncludes (s sub : String) : Bool :=
  decide (sub.data <:+: s.data)

/-- JS `String.prototype.toLowerCase` restricted to the character ranges this
program uses: ASCII letters and the Latin-1 uppercase range (the source file's
keyword literals are Latin-1 text). -/
def jsToLowerChar (c : Char) : Char :=
  if 'A' ≤ c && c ≤ 'Z' then Char.ofNat (c.toNat + 32)
  else if 0xC0 ≤ c.toNat && c.toNat ≤ 0xDE && c.toNat != 0xD7 then Char.ofNat (c.toNat + 32)
  else c

/-- JS `String.prototype.toLowerCase` over a whole string. -/
def jsToLowerCase (s : String) : String :=
  String.mk (s.data.map jsToLowerChar)

/-- JS `message.substring(0, n)`: the first `n` characters. -/
def jsSubstringTo (s : String) (n : Nat) : String :=
  String.mk (s.data.take n)

/-- JS `array.slice(-n)`: the trailing `n` elements (the whole array when it is
shorter than `n`). -/
def jsSliceLast (n : Nat) (l : List α) : List α :=
  l.drop (l.length - n)

/-- JS `String.prototype.trim`: strip leading and trailing whitespace
(the common whitespace characters this program can meet). -/
def jsIsWhitespace (c : Char) : Bool :=
  c == ' ' || c == '\t' || c == '\n' || c == '\r' ||
  c.toNat == 0x0B || c.toNat == 0x0C || c.toNat == 0xA0

/-- JS `s.trim()` over the character list. -/
def jsTrim (s : String) : String :=
  String.mk (((s.data.dropWhile jsIsWhitespace).reverse.dropWhile jsIsWhitespace).reverse)

/-- The Arabic code-point ranges of the regex in `detectLanguage`
(`[؀-ۿݐ-ݿࢠ-ࣿﭐ-﷿ﹰ-﻿]`). -/
def isArabicChar (c : Char) : Bool :=
  (0x600 ≤ c.toNat && c.toNat ≤ 0x6FF) || (0x750 ≤ c.toNat && c.toNat ≤ 0x77F) ||
  (0x8A0 ≤ c.toNat && c.toNat ≤ 0x8FF) || (0xFB50 ≤ c.toNat && c.toNat ≤ 0xFDFF) ||
  (0xFE70 ≤ c.toNat && c.toNat ≤ 0xFEFF)

/-- `detectLanguage` from server.js: "ar" when any character is in the Arabic
ranges, else "en". -/
def detectLanguage (text : String) : String :=
  if text.data.any isArabicChar then "ar" else "en"

/-- `path.extname(name).toLowerCase().replace('.', '')` from the multer
`fileFilter`: the text after the last dot of the name (a dot that is the very
first character does not start an extension; a trailing lone dot yields the
empty string), lowercased. -/
def extnamePart (name : String) : String :=
  let rcs := name.data.reverse
  match rcs.dropWhile (· != '.') with
  | [] => ""
  | _ :: rest =>
    if rest = [] then ""
    else String.mk ((rcs.takeWhile (· != '.')).reverse.map jsToLowerChar)

/-- One uploaded file as multer presents it to the route handler. -/
structure FileDesc where
  originalname : String
  size : Nat
  mimetype : String
deriving Repr, DecidableEq

/-- JS `files.map(f => f.originalname).join(', ')`. -/
def fileNamesJoined (files : List FileDesc) : String :=
  String.intercalate ", " (files.map (·.originalname))

def greetingAr : String := "Ù…Ø±Ø­Ø¨Ø§Ù‹! Ø£Ù†Ø§ Ù…Ø³Ø§Ø¹Ø¯Ùƒ Ø§Ù„Ù‚Ø§Ù†ÙˆÙ†ÙŠ Ø§Ù„Ø°ÙƒÙŠ Ø§Ù„Ù…ØªØ®ØµØµ ÙÙŠ Ø§Ù„Ù‚Ø§Ù†ÙˆÙ† Ø§Ù„Ù…ØµØ±ÙŠ. Ø£Ù†Ø§ Ù‡Ù†Ø§ Ù„Ù…Ø³Ø§Ø¹Ø¯ØªÙƒ ÙÙŠ ÙÙ‡Ù… Ø§Ù„Ø¯Ø³ØªÙˆØ± Ø§Ù„Ù…ØµØ±ÙŠ ÙˆØ§Ù„Ù‚ÙˆØ§Ù†ÙŠÙ† Ø§Ù„Ù…ØµØ±ÙŠØ© ÙˆØ§Ù„Ø¥Ø¬Ø§Ø¨Ø© Ø¹Ù„Ù‰ Ø£Ø³Ø¦Ù„ØªÙƒ Ø­ÙˆÙ„ Ø­Ù‚ÙˆÙ‚Ùƒ Ø¨Ù…ÙˆØ¬Ø¨ Ø§Ù„Ù‚Ø§Ù†ÙˆÙ† Ø§Ù„Ù…ØµØ±ÙŠ. Ù…Ø§ Ù‡Ùˆ Ø§Ù„Ø³Ø¤Ø§Ù„ Ø§Ù„Ù‚Ø§Ù†ÙˆÙ†ÙŠ Ø§Ù„Ù…ØµØ±ÙŠ Ø§Ù„Ø°ÙŠ ÙŠÙ…ÙƒÙ†Ù†ÙŠ Ù…Ø³Ø§Ø¹Ø¯ØªÙƒ Ø¨Ù‡ Ø§Ù„ÙŠÙˆÙ…ØŸ"

def greetingEn : String := "Hello! I'm your AI Legal Assistant specialized in Egyptian law. I'm here to help you understand the Egyptian Constitution and Egyptian laws, and answer questions about your rights under Egyptian law. What Egyptian legal question can I help you with today?"

def thanksAr : String := "Ø¹ÙÙˆØ§Ù‹! Ø¥Ø°Ø§ ÙƒØ§Ù† Ù„Ø¯ÙŠÙƒ Ø£ÙŠ Ø£Ø³Ø¦Ù„Ø© Ø£Ø®Ø±Ù‰ Ø­ÙˆÙ„ Ø§Ù„Ù‚Ø§Ù†ÙˆÙ† Ø§Ù„Ù…ØµØ±ÙŠ Ø£Ùˆ Ø§Ù„Ø¯Ø³ØªÙˆØ± Ø§Ù„Ù…ØµØ±ÙŠØŒ Ù„Ø§ ØªØªØ±Ø¯Ø¯ ÙÙŠ Ø§Ù„Ø³Ø¤Ø§Ù„. ØªØ°ÙƒØ±ØŒ Ù„Ù„Ø­ØµÙˆÙ„ Ø¹Ù„Ù‰ Ù†ØµÙŠØ­Ø© Ù‚Ø§Ù†ÙˆÙ†ÙŠØ© Ù…Ø­Ø¯Ø¯Ø©ØŒ Ù…Ù† Ø§Ù„Ø£ÙØ¶Ù„ Ø¯Ø§Ø¦Ù…Ø§Ù‹ Ø§Ø³ØªØ´Ø§Ø±Ø© Ù…Ø­Ø§Ù…Ù Ù…ØµØ±ÙŠ Ù…Ø¤Ù‡Ù„ Ù…Ø³Ø¬Ù„ ÙÙŠ Ù†Ù‚Ø§Ø¨Ø© Ø§Ù„Ù…Ø­Ø§Ù…ÙŠÙ† Ø§Ù„Ù…ØµØ±ÙŠØ©."

def thanksEn : String := "You're welcome! If you have any other questions about Egyptian law or the Egyptian Constitution, feel free to ask. Remember, for specific legal advice, it's always best to consult with a qualified Egyptian attorney registered with the Egyptian Bar Association."

def helpAr : String := "ÙŠÙ…ÙƒÙ†Ù†ÙŠ Ù…Ø³Ø§Ø¹Ø¯ØªÙƒ ÙÙŠ Ø§Ù„Ø£Ø³Ø¦Ù„Ø© Ø­ÙˆÙ„ Ø§Ù„Ù‚Ø§Ù†ÙˆÙ† Ø§Ù„Ù…ØµØ±ÙŠ ÙˆØ§Ù„Ø¯Ø³ØªÙˆØ± Ø§Ù„Ù…ØµØ±ÙŠØŒ Ø¨Ù…Ø§ ÙÙŠ Ø°Ù„Ùƒ: Ø§Ù„Ø¯Ø³ØªÙˆØ± Ø§Ù„Ù…ØµØ±ÙŠ 2014ØŒ ÙˆØ§Ù„Ù‚Ø§Ù†ÙˆÙ† Ø§Ù„Ù…Ø¯Ù†ÙŠ Ø§Ù„Ù…ØµØ±ÙŠØŒ ÙˆØ§Ù„Ù‚Ø§Ù†ÙˆÙ† Ø§Ù„Ø¬Ù†Ø§Ø¦ÙŠ Ø§Ù„Ù…ØµØ±ÙŠØŒ ÙˆÙ‚Ø§Ù†ÙˆÙ† Ø§Ù„Ø¥ÙŠØ¬Ø§Ø± Ø§Ù„Ù…ØµØ±ÙŠØŒ ÙˆØ§Ù„Ø¹Ù‚ÙˆØ¯ Ø¨Ù…ÙˆØ¬Ø¨ Ø§Ù„Ù‚Ø§Ù†ÙˆÙ† Ø§Ù„Ù…ØµØ±ÙŠØŒ ÙˆØ­Ù‚ÙˆÙ‚ Ø§Ù„Ù…Ø³ØªØ£Ø¬Ø±ÙŠÙ†ØŒ ÙˆØªÙ‚Ø¯ÙŠÙ… Ø§Ù„Ø´ÙƒØ§ÙˆÙ‰ ÙÙŠ Ø§Ù„Ù…Ø­Ø§ÙƒÙ… Ø§Ù„Ù…ØµØ±ÙŠØ©ØŒ ÙˆØ§Ù„Ù†Ø¸Ø§Ù… Ø§Ù„Ù‚Ø¶Ø§Ø¦ÙŠ Ø§Ù„Ù…ØµØ±ÙŠØŒ ÙˆØ­Ù‚ÙˆÙ‚Ùƒ Ø§Ù„Ø¯Ø³ØªÙˆØ±ÙŠØ©. Ù…Ø§Ø°Ø§ ØªØ±ÙŠØ¯ Ø£Ù† ØªØ¹Ø±Ù Ø¹Ù† Ø§Ù„Ù‚Ø§Ù†ÙˆÙ† Ø§Ù„Ù…ØµØ±ÙŠØŸ"

def helpEn : String := "I can help you with questions about Egyptian law and the Egyptian Constitution, including: Egyptian Constitution 2014, Egyptian Civil Code, Egyptian Criminal Code, Egyptian Rent Law, contracts under Egyptian law, tenant rights, filing complaints in Egyptian courts, Egyptian court system, and your constitutional rights. What would you like to know about Egyptian law?"

def genericAr : String := "Ø£ÙÙ‡Ù… Ø£Ù†Ùƒ ØªØ³Ø£Ù„ Ø¹Ù† Ù…Ø³Ø§Ø¦Ù„ Ù‚Ø§Ù†ÙˆÙ†ÙŠØ© Ù…ØµØ±ÙŠØ©. Ø¨ÙŠÙ†Ù…Ø§ ÙŠÙ…ÙƒÙ†Ù†ÙŠ ØªÙ‚Ø¯ÙŠÙ… Ù…Ø¹Ù„ÙˆÙ…Ø§Øª Ø¹Ø§Ù…Ø© Ø¹Ù† Ø§Ù„Ù‚Ø§Ù†ÙˆÙ† Ø§Ù„Ù…ØµØ±ÙŠ ÙˆØ§Ù„Ø¯Ø³ØªÙˆØ± Ø§Ù„Ù…ØµØ±ÙŠØŒ Ø£Ù†ØµØ­Ùƒ Ø¨Ø£Ù† ØªÙƒÙˆÙ† Ø£ÙƒØ«Ø± ØªØ­Ø¯ÙŠØ¯Ø§Ù‹ ÙÙŠ Ø³Ø¤Ø§Ù„Ùƒ. Ø¹Ù„Ù‰ Ø³Ø¨ÙŠÙ„ Ø§Ù„Ù…Ø«Ø§Ù„ØŒ ÙŠÙ…ÙƒÙ†Ùƒ Ø£Ù† ØªØ³Ø£Ù„ Ø¹Ù†: Ø§Ù„Ø¯Ø³ØªÙˆØ± Ø§Ù„Ù…ØµØ±ÙŠØŒ Ø£Ùˆ Ø§Ù„Ù‚Ø§Ù†ÙˆÙ† Ø§Ù„Ù…Ø¯Ù†ÙŠ Ø§Ù„Ù…ØµØ±ÙŠØŒ Ø£Ùˆ Ù‚Ø§Ù†ÙˆÙ† Ø§Ù„Ø¥ÙŠØ¬Ø§Ø± Ø§Ù„Ù…ØµØ±ÙŠØŒ Ø£Ùˆ Ø§Ù„Ø¹Ù‚ÙˆØ¯ Ø¨Ù…ÙˆØ¬Ø¨ Ø§Ù„Ù‚Ø§Ù†ÙˆÙ† Ø§Ù„Ù…ØµØ±ÙŠØŒ Ø£Ùˆ ÙƒÙŠÙÙŠØ© ØªÙ‚Ø¯ÙŠÙ… Ø¯Ø¹ÙˆÙ‰ ÙÙŠ Ø§Ù„Ù…Ø­Ø§ÙƒÙ… Ø§Ù„Ù…ØµØ±ÙŠØ©. Ù„Ù„Ø­ØµÙˆÙ„ Ø¹Ù„Ù‰ Ù†ØµÙŠØ­Ø© Ù‚Ø§Ù†ÙˆÙ†ÙŠØ© Ù…Ø­Ø¯Ø¯Ø© Ù„Ø­Ø§Ù„ØªÙƒ Ø¨Ù…ÙˆØ¬Ø¨ Ø§Ù„Ù‚Ø§Ù†ÙˆÙ† Ø§Ù„Ù…ØµØ±ÙŠØŒ ÙŠØ±Ø¬Ù‰ Ø§Ø³ØªØ´Ø§Ø±Ø© Ù…Ø­Ø§Ù…Ù Ù…ØµØ±ÙŠ Ù…Ø¤Ù‡Ù„ Ù…Ø³Ø¬Ù„ ÙÙŠ Ù†Ù‚Ø§Ø¨Ø© Ø§Ù„Ù…Ø­Ø§Ù…ÙŠÙ† Ø§Ù„Ù…ØµØ±ÙŠØ©."

def genericEn : String := "I understand you're asking about Egyptian legal matters. While I can provide general information about Egyptian law and the Egyptian Constitution, I'd recommend being more specific about your question. For example, you could ask about: the Egyptian Constitution, Egyptian Civil Code, Egyptian Rent Law, contracts under Egyptian law, or how to file a lawsuit in Egyptian courts. For specific legal advice tailored to your situation under Egyptian law, please consult with a qualified Egyptian attorney registered with the Egyptian Bar Association."

def fileUploadFallbackAr (files : List FileDesc) (fileNames : String) : String :=
  "Ø´ÙƒØ±Ø§Ù‹ Ù„Ùƒ Ø¹Ù„Ù‰ Ø±ÙØ¹ "
    ++ toString files.length
    ++ " Ù…Ù„Ù(Ø§Øª): "
    ++ fileNames
    ++ ". Ù„Ù‚Ø¯ Ø§Ø³ØªÙ„Ù…Øª Ù…Ø³ØªÙ†Ø¯Ø§ØªÙƒ.\n\nÙŠÙ…ÙƒÙ†Ù†ÙŠ Ù…Ø³Ø§Ø¹Ø¯ØªÙƒ ÙÙŠ ÙÙ‡Ù… Ø§Ù„Ù…Ø³ØªÙ†Ø¯Ø§Øª Ø§Ù„Ù‚Ø§Ù†ÙˆÙ†ÙŠØ© Ø§Ù„Ù…ØµØ±ÙŠØ© ÙˆÙÙ‚Ø§Ù‹ Ù„Ù„Ø¯Ø³ØªÙˆØ± Ø§Ù„Ù…ØµØ±ÙŠ ÙˆØ§Ù„Ù‚ÙˆØ§Ù†ÙŠÙ† Ø§Ù„Ù…ØµØ±ÙŠØ©. Ø£Ù†ØµØ­Ùƒ Ø¨Ù…Ø±Ø§Ø¬Ø¹Ø© Ø§Ù„Ù…Ø³ØªÙ†Ø¯Ø§Øª Ù…Ø¹ Ù…Ø­Ø§Ù…Ù Ù…Ø¤Ù‡Ù„ Ù„Ù„Ø­ØµÙˆÙ„ Ø¹Ù„Ù‰ Ù†ØµÙŠØ­Ø© Ù‚Ø§Ù†ÙˆÙ†ÙŠØ© Ù…Ø­Ø¯Ø¯Ø©.\n\nÙ‡Ù„ ÙŠÙ…ÙƒÙ†Ùƒ Ø¥Ø®Ø¨Ø§Ø±ÙŠ Ù…Ø§ Ù‡Ùˆ Ø§Ù„Ø³Ø¤Ø§Ù„ Ø§Ù„Ù‚Ø§Ù†ÙˆÙ†ÙŠ Ø§Ù„Ù…Ø­Ø¯Ø¯ Ø§Ù„Ø°ÙŠ Ù„Ø¯ÙŠÙƒ Ø­ÙˆÙ„ Ù‡Ø°Ù‡ Ø§Ù„Ù…Ø³ØªÙ†Ø¯Ø§ØªØŸ Ø¹Ù„Ù‰ Ø³Ø¨ÙŠÙ„ Ø§Ù„Ù…Ø«Ø§Ù„:\n- Ù‡Ù„ ØªØ­ØªØ§Ø¬ Ù…Ø³Ø§Ø¹Ø¯Ø© ÙÙŠ ÙÙ‡Ù… Ø¹Ù‚Ø¯ ÙˆÙÙ‚ Ø§Ù„Ù‚Ø§Ù†ÙˆÙ† Ø§Ù„Ù…Ø¯Ù†ÙŠ Ø§Ù„Ù…ØµØ±ÙŠØŸ\n- Ù‡Ù„ ØªØ¨Ø­Ø« Ø¹Ù† ØªÙˆØ¶ÙŠØ­ Ù„Ù„Ù…ØµØ·Ù„Ø­Ø§Øª Ø§Ù„Ù‚Ø§Ù†ÙˆÙ†ÙŠØ© Ø§Ù„Ù…ØµØ±ÙŠØ©ØŸ\n- Ù‡Ù„ ØªØ­ØªØ§Ø¬ Ù…Ø³Ø§Ø¹Ø¯Ø© ÙÙŠ ØªØ­Ø¯ÙŠØ¯ Ø§Ù„Ù…Ø´Ø§ÙƒÙ„ Ø§Ù„Ù‚Ø§Ù†ÙˆÙ†ÙŠØ© Ø§Ù„Ù…Ø­ØªÙ…Ù„Ø©ØŸ\n\nÙŠØ±Ø¬Ù‰ ÙˆØµÙ Ù…Ø§ ØªØ±ÙŠØ¯ Ù…Ù†ÙŠ Ù…Ø³Ø§Ø¹Ø¯ØªÙƒ Ø¨Ù‡ ÙÙŠÙ…Ø§ ÙŠØªØ¹Ù„Ù‚ Ø¨Ù‡Ø°Ù‡ Ø§Ù„Ù…Ù„ÙØ§Øª."

def fileUploadFallbackEn (files : List FileDesc) (fileNames : String) : String :=
  "Thank you for uploading "
    ++ toString files.length
    ++ " file(s): "
    ++ fileNames
    ++ ". I've received your documents. \n\nI can help you understand Egyptian legal documents according to the Egyptian Constitution and Egyptian laws. I recommend reviewing the documents with a qualified Egyptian attorney for specific legal advice. \n\nCould you tell me what specific legal question you have about these documents? For example:\n- Do you need help understanding a contract under Egyptian Civil Law?\n- Are you looking for clarification on Egyptian legal terms?\n- Do you need help identifying potential legal issues?\n\nPlease describe what you'd like me to help you with regarding these files."

def systemPrompt : String := "You are an expert AI legal assistant specialized in Egyptian law and the Egyptian Constitution of 2014. Your expertise includes:\n\nEGYPTIAN LEGAL SYSTEM:\n- Egyptian Constitution 2014 (supreme law of Egypt)\n- Egyptian Civil Code (Law 131/1948) - contracts, property, torts, obligations\n- Egyptian Criminal Code (Law 58/1937) - felonies (Ø¬Ù†Ø§ÙŠØ§Øª), misdemeanors (Ø¬Ù†Ø­), violations (Ù…Ø®Ø§Ù„ÙØ§Øª)\n- Egyptian Rent Law - Law No. 4 of 1996 (Old Rent) and Law No. 199 of 2021 (New Rent)\n- Egyptian Commercial Code\n- Egyptian Labor Law\n- Egyptian Personal Status Law\n- Egyptian court system: Constitutional Court, Court of Cassation, Courts of Appeal, Primary Courts\n\nIMPORTANT GUIDELINES:\n- Always respond in the SAME LANGUAGE as the user's question (English or Arabic)\n- Focus exclusively on Egyptian law and legal system\n- Provide accurate, detailed, and comprehensive information about Egyptian legal matters\n- Answer questions directly and helpfully - do not give generic responses asking for more specificity\n- Provide detailed explanations with examples when relevant\n- Always emphasize that specific legal advice should come from a licensed Egyptian attorney registered with the Egyptian Bar Association (Ù†Ù‚Ø§Ø¨Ø© Ø§Ù„Ù…Ø­Ø§Ù…ÙŠÙ†)\n- Be helpful, professional, and clear in your explanations\n- Reference specific Egyptian laws, articles, and legal procedures when relevant\n- If asked about non-Egyptian law, politely redirect to Egyptian law context\n- If the question is unclear, make reasonable assumptions and provide helpful information based on common interpretations"

def apiFileNoteAr (files : List FileDesc) (fileNames : String) : String :=
  "\n\nÙ…Ù„Ø§Ø­Ø¸Ø©: Ø§Ù„Ù…Ø³ØªØ®Ø¯Ù… Ø±ÙØ¹ "
    ++ toString files.length
    ++ " Ù…Ù„Ù(Ø§Øª): "
    ++ fileNames
    ++ ". Ù„Ø§ ÙŠÙ…ÙƒÙ†Ù†ÙŠ Ù‚Ø±Ø§Ø¡Ø© Ù…Ø­ØªÙˆÙ‰ Ø§Ù„Ù…Ù„ÙØ§ØªØŒ Ù„ÙƒÙ† ÙŠÙ…ÙƒÙ†Ù†ÙŠ Ø§Ù„Ø¥Ø¬Ø§Ø¨Ø© Ø¹Ù„Ù‰ Ø§Ù„Ø£Ø³Ø¦Ù„Ø© Ø§Ù„Ø¹Ø§Ù…Ø© Ø­ÙˆÙ„ Ø§Ù„Ù…Ø³ØªÙ†Ø¯Ø§Øª Ø§Ù„Ù‚Ø§Ù†ÙˆÙ†ÙŠØ© Ø§Ù„Ù…ØµØ±ÙŠØ©."

def apiFileNoteEn (files : List FileDesc) (fileNames : String) : String :=
  "\n\nNote: User uploaded "
    ++ toString files.length
    ++ " file(s): "
    ++ fileNames
    ++ ". I cannot read file contents, but I can answer general questions about Egyptian legal documents."

/-- The fallback keyword-response table from generateFallbackResponse in server.js
(`const responses = ...`): entries (keyword, en, ar) in source (insertion) order. -/
def fallbackResponses : List (String × String × String) := [
  ("constitution",
   "The Egyptian Constitution of 2014 is the supreme law of Egypt. It establishes Egypt as a democratic republic, guarantees fundamental rights and freedoms, and defines the structure of government. Key provisions include: separation of powers, protection of human rights, freedom of expression, right to education, and social justice. The Constitution can only be amended by a two-thirds majority vote in Parliament and a public referendum.",
   "Ø¯Ø³ØªÙˆØ± Ù…ØµØ± 2014 Ù‡Ùˆ Ø§Ù„Ù‚Ø§Ù†ÙˆÙ† Ø§Ù„Ø£Ø¹Ù„Ù‰ ÙÙŠ Ù…ØµØ±. ÙŠÙ†Øµ Ø¹Ù„Ù‰ Ø£Ù† Ù…ØµØ± Ø¬Ù…Ù‡ÙˆØ±ÙŠØ© Ø¯ÙŠÙ…Ù‚Ø±Ø§Ø·ÙŠØ©ØŒ ÙˆÙŠØ¶Ù…Ù† Ø§Ù„Ø­Ù‚ÙˆÙ‚ ÙˆØ§Ù„Ø­Ø±ÙŠØ§Øª Ø§Ù„Ø£Ø³Ø§Ø³ÙŠØ©ØŒ ÙˆÙŠØ­Ø¯Ø¯ Ù‡ÙŠÙƒÙ„ Ø§Ù„Ø­ÙƒÙˆÙ…Ø©. Ø§Ù„Ø£Ø­ÙƒØ§Ù… Ø§Ù„Ø±Ø¦ÙŠØ³ÙŠØ© ØªØ´Ù…Ù„: ÙØµÙ„ Ø§Ù„Ø³Ù„Ø·Ø§ØªØŒ ÙˆØ­Ù…Ø§ÙŠØ© Ø­Ù‚ÙˆÙ‚ Ø§Ù„Ø¥Ù†Ø³Ø§Ù†ØŒ ÙˆØ­Ø±ÙŠØ© Ø§Ù„ØªØ¹Ø¨ÙŠØ±ØŒ ÙˆØ§Ù„Ø­Ù‚ ÙÙŠ Ø§Ù„ØªØ¹Ù„ÙŠÙ…ØŒ ÙˆØ§Ù„Ø¹Ø¯Ø§Ù„Ø© Ø§Ù„Ø§Ø¬ØªÙ…Ø§Ø¹ÙŠØ©. Ù„Ø§ ÙŠÙ…ÙƒÙ† ØªØ¹Ø¯ÙŠÙ„ Ø§Ù„Ø¯Ø³ØªÙˆØ± Ø¥Ù„Ø§ Ø¨Ø£ØºÙ„Ø¨ÙŠØ© Ø«Ù„Ø«ÙŠ Ø§Ù„Ø£ØµÙˆØ§Øª ÙÙŠ Ø§Ù„Ø¨Ø±Ù„Ù…Ø§Ù† ÙˆØ§Ø³ØªÙØªØ§Ø¡ Ø¹Ø§Ù…."),
  ("Ø¯Ø³ØªÙˆØ±",
   "The Egyptian Constitution of 2014 is the supreme law of Egypt. It establishes Egypt as a democratic republic, guarantees fundamental rights and freedoms, and defines the structure of government. Key provisions include: separation of powers, protection of human rights, freedom of expression, right to education, and social justice. The Constitution can only be amended by a two-thirds majority vote in Parliament and a public referendum.",
   "Ø¯Ø³ØªÙˆØ± Ù…ØµØ± 2014 Ù‡Ùˆ Ø§Ù„Ù‚Ø§Ù†ÙˆÙ† Ø§Ù„Ø£Ø¹Ù„Ù‰ ÙÙŠ Ù…ØµØ±. ÙŠÙ†Øµ Ø¹Ù„Ù‰ Ø£Ù† Ù…ØµØ± Ø¬Ù…Ù‡ÙˆØ±ÙŠØ© Ø¯ÙŠÙ…Ù‚Ø±Ø§Ø·ÙŠØ©ØŒ ÙˆÙŠØ¶Ù…Ù† Ø§Ù„Ø­Ù‚ÙˆÙ‚ ÙˆØ§Ù„Ø­Ø±ÙŠØ§Øª Ø§Ù„Ø£Ø³Ø§Ø³ÙŠØ©ØŒ ÙˆÙŠØ­Ø¯Ø¯ Ù‡ÙŠÙƒÙ„ Ø§Ù„Ø­ÙƒÙˆÙ…Ø©. Ø§Ù„Ø£Ø­ÙƒØ§Ù… Ø§Ù„Ø±Ø¦ÙŠØ³ÙŠØ© ØªØ´Ù…Ù„: ÙØµÙ„ Ø§Ù„Ø³Ù„Ø·Ø§ØªØŒ ÙˆØ­Ù…Ø§ÙŠØ© Ø­Ù‚ÙˆÙ‚ Ø§Ù„Ø¥Ù†Ø³Ø§Ù†ØŒ ÙˆØ­Ø±ÙŠØ© Ø§Ù„ØªØ¹Ø¨ÙŠØ±ØŒ ÙˆØ§Ù„Ø­Ù‚ ÙÙŠ Ø§Ù„ØªØ¹Ù„ÙŠÙ…ØŒ ÙˆØ§Ù„Ø¹Ø¯Ø§Ù„Ø© Ø§Ù„Ø§Ø¬ØªÙ…Ø§Ø¹ÙŠØ©. Ù„Ø§ ÙŠÙ…ÙƒÙ† ØªØ¹Ø¯ÙŠÙ„ Ø§Ù„Ø¯Ø³ØªÙˆØ± Ø¥Ù„Ø§ Ø¨Ø£ØºÙ„Ø¨ÙŠØ© Ø«Ù„Ø«ÙŠ Ø§Ù„Ø£ØµÙˆØ§Øª ÙÙŠ Ø§Ù„Ø¨Ø±Ù„Ù…Ø§Ù† ÙˆØ§Ø³ØªÙØªØ§Ø¡ Ø¹Ø§Ù…."),
  ("Ù…ØµØ±",
   "Egypt operates under a civil law system based on the Egyptian Constitution of 2014. The legal system includes: Civil Code, Criminal Code, Commercial Code, Labor Law, Personal Status Law, and various specialized laws. Egyptian courts include: Constitutional Court, Court of Cassation, Courts of Appeal, Primary Courts, and specialized courts. All laws must comply with the Constitution.",
   "ØªØ¹Ù…Ù„ Ù…ØµØ± ØªØ­Øª Ù†Ø¸Ø§Ù… Ø§Ù„Ù‚Ø§Ù†ÙˆÙ† Ø§Ù„Ù…Ø¯Ù†ÙŠ Ø§Ù„Ù…Ø³ØªÙ†Ø¯ Ø¥Ù„Ù‰ Ø¯Ø³ØªÙˆØ± Ù…ØµØ± 2014. Ø§Ù„Ù†Ø¸Ø§Ù… Ø§Ù„Ù‚Ø§Ù†ÙˆÙ†ÙŠ ÙŠØ´Ù…Ù„: Ø§Ù„Ù‚Ø§Ù†ÙˆÙ† Ø§Ù„Ù…Ø¯Ù†ÙŠØŒ ÙˆØ§Ù„Ù‚Ø§Ù†ÙˆÙ† Ø§Ù„Ø¬Ù†Ø§Ø¦ÙŠØŒ ÙˆØ§Ù„Ù‚Ø§Ù†ÙˆÙ† Ø§Ù„ØªØ¬Ø§Ø±ÙŠØŒ ÙˆÙ‚Ø§Ù†ÙˆÙ† Ø§Ù„Ø¹Ù…Ù„ØŒ ÙˆÙ‚Ø§Ù†ÙˆÙ† Ø§Ù„Ø£Ø­ÙˆØ§Ù„ Ø§Ù„Ø´Ø®ØµÙŠØ©ØŒ ÙˆÙ‚ÙˆØ§Ù†ÙŠÙ† Ù…ØªØ®ØµØµØ© Ø£Ø®Ø±Ù‰. Ù…Ø­Ø§ÙƒÙ… Ù…ØµØ± ØªØ´Ù…Ù„: Ø§Ù„Ù…Ø­ÙƒÙ…Ø© Ø§Ù„Ø¯Ø³ØªÙˆØ±ÙŠØ©ØŒ ÙˆÙ…Ø­ÙƒÙ…Ø© Ø§Ù„Ù†Ù‚Ø¶ØŒ ÙˆÙ…Ø­Ø§ÙƒÙ… Ø§Ù„Ø§Ø³ØªØ¦Ù†Ø§ÙØŒ ÙˆØ§Ù„Ù…Ø­Ø§ÙƒÙ… Ø§Ù„Ø§Ø¨ØªØ¯Ø§Ø¦ÙŠØ©ØŒ ÙˆØ§Ù„Ù…Ø­Ø§ÙƒÙ… Ø§Ù„Ù…ØªØ®ØµØµØ©. ÙŠØ¬Ø¨ Ø£Ù† ØªØªÙˆØ§ÙÙ‚ Ø¬Ù…ÙŠØ¹ Ø§Ù„Ù‚ÙˆØ§Ù†ÙŠÙ† Ù…Ø¹ Ø§Ù„Ø¯Ø³ØªÙˆØ±."),
  ("egyptian",
   "Egypt operates under a civil law system based on the Egyptian Constitution of 2014. The legal system includes: Civil Code, Criminal Code, Commercial Code, Labor Law, Personal Status Law, and various specialized laws. Egyptian courts include: Constitutional Court, Court of Cassation, Courts of Appeal, Primary Courts, and specialized courts. All laws must comply with the Constitution.",
   "ØªØ¹Ù…Ù„ Ù…ØµØ± ØªØ­Øª Ù†Ø¸Ø§Ù… Ø§Ù„Ù‚Ø§Ù†ÙˆÙ† Ø§Ù„Ù…Ø¯Ù†ÙŠ Ø§Ù„Ù…Ø³ØªÙ†Ø¯ Ø¥Ù„Ù‰ Ø¯Ø³ØªÙˆØ± Ù…ØµØ± 2014. Ø§Ù„Ù†Ø¸Ø§Ù… Ø§Ù„Ù‚Ø§Ù†ÙˆÙ†ÙŠ ÙŠØ´Ù…Ù„: Ø§Ù„Ù‚Ø§Ù†ÙˆÙ† Ø§Ù„Ù…Ø¯Ù†ÙŠØŒ ÙˆØ§Ù„Ù‚Ø§Ù†ÙˆÙ† Ø§Ù„Ø¬Ù†Ø§Ø¦ÙŠØŒ ÙˆØ§Ù„Ù‚Ø§Ù†ÙˆÙ† Ø§Ù„ØªØ¬Ø§Ø±ÙŠØŒ ÙˆÙ‚Ø§Ù†ÙˆÙ† Ø§Ù„Ø¹Ù…Ù„ØŒ ÙˆÙ‚Ø§Ù†ÙˆÙ† Ø§Ù„Ø£Ø­ÙˆØ§Ù„ Ø§Ù„Ø´Ø®ØµÙŠØ©ØŒ ÙˆÙ‚ÙˆØ§Ù†ÙŠÙ† Ù…ØªØ®ØµØµØ© Ø£Ø®Ø±Ù‰. Ù…Ø­Ø§ÙƒÙ… Ù…ØµØ± ØªØ´Ù…Ù„: Ø§Ù„Ù…Ø­ÙƒÙ…Ø© Ø§Ù„Ø¯Ø³ØªÙˆØ±ÙŠØ©ØŒ ÙˆÙ…Ø­ÙƒÙ…Ø© Ø§Ù„Ù†Ù‚Ø¶ØŒ ÙˆÙ…Ø­Ø§ÙƒÙ… Ø§Ù„Ø§Ø³ØªØ¦Ù†Ø§ÙØŒ ÙˆØ§Ù„Ù…Ø­Ø§ÙƒÙ… Ø§Ù„Ø§Ø¨ØªØ¯Ø§Ø¦ÙŠØ©ØŒ ÙˆØ§Ù„Ù…Ø­Ø§ÙƒÙ… Ø§Ù„Ù…ØªØ®ØµØµØ©. ÙŠØ¬Ø¨ Ø£Ù† ØªØªÙˆØ§ÙÙ‚ Ø¬Ù…ÙŠØ¹ Ø§Ù„Ù‚ÙˆØ§Ù†ÙŠÙ† Ù…Ø¹ Ø§Ù„Ø¯Ø³ØªÙˆØ±."),
  ("tenant",
   "Under Egyptian Law No. 4 of 1996 (Old Rent Law) and Law No. 199 of 2021 (New Rent Law), tenants have rights including: protection from arbitrary eviction, right to habitable premises, and proper notice requirements. The Old Rent Law applies to contracts before 2001 with rent control. New contracts follow market rates. Eviction requires court order and valid reasons such as non-payment, breach of contract, or owner's need for personal use.",
   "ÙˆÙÙ‚Ø§Ù‹ Ù„Ù‚Ø§Ù†ÙˆÙ† Ø§Ù„Ø¥ÙŠØ¬Ø§Ø± Ø§Ù„Ù‚Ø¯ÙŠÙ… Ø±Ù‚Ù… 4 Ù„Ø³Ù†Ø© 1996 ÙˆÙ‚Ø§Ù†ÙˆÙ† Ø§Ù„Ø¥ÙŠØ¬Ø§Ø± Ø§Ù„Ø¬Ø¯ÙŠØ¯ Ø±Ù‚Ù… 199 Ù„Ø³Ù†Ø© 2021ØŒ Ù„Ù„Ù…Ø³ØªØ£Ø¬Ø±ÙŠÙ† Ø­Ù‚ÙˆÙ‚ ØªØ´Ù…Ù„: Ø§Ù„Ø­Ù…Ø§ÙŠØ© Ù…Ù† Ø§Ù„Ø¥Ø®Ù„Ø§Ø¡ Ø§Ù„ØªØ¹Ø³ÙÙŠØŒ ÙˆØ§Ù„Ø­Ù‚ ÙÙŠ Ù…Ø³ÙƒÙ† ØµØ§Ù„Ø­ Ù„Ù„Ø³ÙƒÙ†ØŒ ÙˆÙ…ØªØ·Ù„Ø¨Ø§Øª Ø§Ù„Ø¥Ø´Ø¹Ø§Ø± Ø§Ù„Ù…Ù†Ø§Ø³Ø¨Ø©. Ù‚Ø§Ù†ÙˆÙ† Ø§Ù„Ø¥ÙŠØ¬Ø§Ø± Ø§Ù„Ù‚Ø¯ÙŠÙ… ÙŠÙ†Ø·Ø¨Ù‚ Ø¹Ù„Ù‰ Ø§Ù„Ø¹Ù‚ÙˆØ¯ Ù‚Ø¨Ù„ 2001 Ù…Ø¹ ØªØ­Ø¯ÙŠØ¯ Ø§Ù„Ø¥ÙŠØ¬Ø§Ø±. Ø§Ù„Ø¹Ù‚ÙˆØ¯ Ø§Ù„Ø¬Ø¯ÙŠØ¯Ø© ØªØªØ¨Ø¹ Ø£Ø³Ø¹Ø§Ø± Ø§Ù„Ø³ÙˆÙ‚. Ø§Ù„Ø¥Ø®Ù„Ø§Ø¡ ÙŠØªØ·Ù„Ø¨ Ø£Ù…Ø± Ù…Ø­ÙƒÙ…Ø© ÙˆØ£Ø³Ø¨Ø§Ø¨Ø§Ù‹ ØµØ­ÙŠØ­Ø© Ù…Ø«Ù„ Ø¹Ø¯Ù… Ø§Ù„Ø¯ÙØ¹ØŒ Ø£Ùˆ Ø§Ù†ØªÙ‡Ø§Ùƒ Ø§Ù„Ø¹Ù‚Ø¯ØŒ Ø£Ùˆ Ø­Ø§Ø¬Ø© Ø§Ù„Ù…Ø§Ù„Ùƒ Ù„Ù„Ø§Ø³ØªØ®Ø¯Ø§Ù… Ø§Ù„Ø´Ø®ØµÙŠ."),
  ("rent",
   "Egyptian rent law distinguishes between old rent (pre-2001) and new rent contracts. Old rent contracts are subject to rent control and can only be increased by specific percentages set by law. New rent contracts (Law 199/2021) follow market rates. Rent increases must be agreed upon in the contract or follow legal procedures. Disputes are resolved through Real Estate Rental Dispute Committees or courts.",
   "Ù‚Ø§Ù†ÙˆÙ† Ø§Ù„Ø¥ÙŠØ¬Ø§Ø± Ø§Ù„Ù…ØµØ±ÙŠ ÙŠÙ…ÙŠØ² Ø¨ÙŠÙ† Ø§Ù„Ø¥ÙŠØ¬Ø§Ø± Ø§Ù„Ù‚Ø¯ÙŠÙ… (Ù‚Ø¨Ù„ 2001) ÙˆØ¹Ù‚ÙˆØ¯ Ø§Ù„Ø¥ÙŠØ¬Ø§Ø± Ø§Ù„Ø¬Ø¯ÙŠØ¯Ø©. Ø¹Ù‚ÙˆØ¯ Ø§Ù„Ø¥ÙŠØ¬Ø§Ø± Ø§Ù„Ù‚Ø¯ÙŠÙ…Ø© ØªØ®Ø¶Ø¹ Ù„ØªØ­Ø¯ÙŠØ¯ Ø§Ù„Ø¥ÙŠØ¬Ø§Ø± ÙˆÙŠÙ…ÙƒÙ† Ø²ÙŠØ§Ø¯ØªÙ‡Ø§ ÙÙ‚Ø· Ø¨Ù†Ø³Ø¨ Ù…Ø­Ø¯Ø¯Ø© ÙŠØ­Ø¯Ø¯Ù‡Ø§ Ø§Ù„Ù‚Ø§Ù†ÙˆÙ†. Ø¹Ù‚ÙˆØ¯ Ø§Ù„Ø¥ÙŠØ¬Ø§Ø± Ø§Ù„Ø¬Ø¯ÙŠØ¯Ø© (Ù‚Ø§Ù†ÙˆÙ† 199/2021) ØªØªØ¨Ø¹ Ø£Ø³Ø¹Ø§Ø± Ø§Ù„Ø³ÙˆÙ‚. Ø²ÙŠØ§Ø¯Ø© Ø§Ù„Ø¥ÙŠØ¬Ø§Ø± ÙŠØ¬Ø¨ Ø£Ù† ÙŠØªÙ… Ø§Ù„Ø§ØªÙØ§Ù‚ Ø¹Ù„ÙŠÙ‡Ø§ ÙÙŠ Ø§Ù„Ø¹Ù‚Ø¯ Ø£Ùˆ Ø§ØªØ¨Ø§Ø¹ Ø§Ù„Ø¥Ø¬Ø±Ø§Ø¡Ø§Øª Ø§Ù„Ù‚Ø§Ù†ÙˆÙ†ÙŠØ©. Ø§Ù„Ù†Ø²Ø§Ø¹Ø§Øª ØªØ­Ù„ Ù…Ù† Ø®Ù„Ø§Ù„ Ù„Ø¬Ø§Ù† Ù…Ù†Ø§Ø²Ø¹Ø§Øª Ø¥ÙŠØ¬Ø§Ø± Ø§Ù„Ø¹Ù‚Ø§Ø±Ø§Øª Ø£Ùˆ Ø§Ù„Ù…Ø­Ø§ÙƒÙ…."),
  ("Ø¥ÙŠØ¬Ø§Ø±",
   "Egyptian rent law distinguishes between old rent (pre-2001) and new rent contracts. Old rent contracts are subject to rent control and can only be increased by specific percentages set by law. New rent contracts (Law 199/2021) follow market rates. Rent increases must be agreed upon in the contract or follow legal procedures. Disputes are resolved through Real Estate Rental Dispute Committees or courts.",
   "Ù‚Ø§Ù†ÙˆÙ† Ø§Ù„Ø¥ÙŠØ¬Ø§Ø± Ø§Ù„Ù…ØµØ±ÙŠ ÙŠÙ…ÙŠØ² Ø¨ÙŠÙ† Ø§Ù„Ø¥ÙŠØ¬Ø§Ø± Ø§Ù„Ù‚Ø¯ÙŠÙ… (Ù‚Ø¨Ù„ 2001) ÙˆØ¹Ù‚ÙˆØ¯ Ø§Ù„Ø¥ÙŠØ¬Ø§Ø± Ø§Ù„Ø¬Ø¯ÙŠØ¯Ø©. Ø¹Ù‚ÙˆØ¯ Ø§Ù„Ø¥ÙŠØ¬Ø§Ø± Ø§Ù„Ù‚Ø¯ÙŠÙ…Ø© ØªØ®Ø¶Ø¹ Ù„ØªØ­Ø¯ÙŠØ¯ Ø§Ù„Ø¥ÙŠØ¬Ø§Ø± ÙˆÙŠÙ…ÙƒÙ† Ø²ÙŠØ§Ø¯ØªÙ‡Ø§ ÙÙ‚Ø· Ø¨Ù†Ø³Ø¨ Ù…Ø­Ø¯Ø¯Ø© ÙŠØ­Ø¯Ø¯Ù‡Ø§ Ø§Ù„Ù‚Ø§Ù†ÙˆÙ†. Ø¹Ù‚ÙˆØ¯ Ø§Ù„Ø¥ÙŠØ¬Ø§Ø± Ø§Ù„Ø¬Ø¯ÙŠØ¯Ø© (Ù‚Ø§Ù†ÙˆÙ† 199/2021) ØªØªØ¨Ø¹ Ø£Ø³Ø¹Ø§Ø± Ø§Ù„Ø³ÙˆÙ‚. Ø²ÙŠØ§Ø¯Ø© Ø§Ù„Ø¥ÙŠØ¬Ø§Ø± ÙŠØ¬Ø¨ Ø£Ù† ÙŠØªÙ… Ø§Ù„Ø§ØªÙØ§Ù‚ Ø¹Ù„ÙŠÙ‡Ø§ ÙÙŠ Ø§Ù„Ø¹Ù‚Ø¯ Ø£Ùˆ Ø§ØªØ¨Ø§Ø¹ Ø§Ù„Ø¥Ø¬Ø±Ø§Ø¡Ø§Øª Ø§Ù„Ù‚Ø§Ù†ÙˆÙ†ÙŠØ©. Ø§Ù„Ù†Ø²Ø§Ø¹Ø§Øª ØªØ­Ù„ Ù…Ù† Ø®Ù„Ø§Ù„ Ù„Ø¬Ø§Ù† Ù…Ù†Ø§Ø²Ø¹Ø§Øª Ø¥ÙŠØ¬Ø§Ø± Ø§Ù„Ø¹Ù‚Ø§Ø±Ø§Øª Ø£Ùˆ Ø§Ù„Ù…Ø­Ø§ÙƒÙ…."),
  ("Ù…Ø³ØªØ£Ø¬Ø±",
   "Under Egyptian Law No. 4 of 1996 (Old Rent Law) and Law No. 199 of 2021 (New Rent Law), tenants have rights including: protection from arbitrary eviction, right to habitable premises, and proper notice requirements. The Old Rent Law applies to contracts before 2001 with rent control. New contracts follow market rates. Eviction requires court order and valid reasons such as non-payment, breach of contract, or owner's need for personal use.",
   "ÙˆÙÙ‚Ø§Ù‹ Ù„Ù‚Ø§Ù†ÙˆÙ† Ø§Ù„Ø¥ÙŠØ¬Ø§Ø± Ø§Ù„Ù‚Ø¯ÙŠÙ… Ø±Ù‚Ù… 4 Ù„Ø³Ù†Ø© 1996 ÙˆÙ‚Ø§Ù†ÙˆÙ† Ø§Ù„Ø¥ÙŠØ¬Ø§Ø± Ø§Ù„Ø¬Ø¯ÙŠØ¯ Ø±Ù‚Ù… 199 Ù„Ø³Ù†Ø© 2021ØŒ Ù„Ù„Ù…Ø³ØªØ£Ø¬Ø±ÙŠÙ† Ø­Ù‚ÙˆÙ‚ ØªØ´Ù…Ù„: Ø§Ù„Ø­Ù…Ø§ÙŠØ© Ù…Ù† Ø§Ù„Ø¥Ø®Ù„Ø§Ø¡ Ø§Ù„ØªØ¹Ø³ÙÙŠØŒ ÙˆØ§Ù„Ø­Ù‚ ÙÙŠ Ù…Ø³ÙƒÙ† ØµØ§Ù„Ø­ Ù„Ù„Ø³ÙƒÙ†ØŒ ÙˆÙ…ØªØ·Ù„Ø¨Ø§Øª Ø§Ù„Ø¥Ø´Ø¹Ø§Ø± Ø§Ù„Ù…Ù†Ø§Ø³Ø¨Ø©. Ù‚Ø§Ù†ÙˆÙ† Ø§Ù„Ø¥ÙŠØ¬Ø§Ø± Ø§Ù„Ù‚Ø¯ÙŠÙ… ÙŠÙ†Ø·Ø¨Ù‚ Ø¹Ù„Ù‰ Ø§Ù„Ø¹Ù‚ÙˆØ¯ Ù‚Ø¨Ù„ 2001 Ù…Ø¹ ØªØ­Ø¯ÙŠØ¯ Ø§Ù„Ø¥ÙŠØ¬Ø§Ø±. Ø§Ù„Ø¹Ù‚ÙˆØ¯ Ø§Ù„Ø¬Ø¯ÙŠØ¯Ø© ØªØªØ¨Ø¹ Ø£Ø³Ø¹Ø§Ø± Ø§Ù„Ø³ÙˆÙ‚. Ø§Ù„Ø¥Ø®Ù„Ø§Ø¡ ÙŠØªØ·Ù„Ø¨ Ø£Ù…Ø± Ù…Ø­ÙƒÙ…Ø© ÙˆØ£Ø³Ø¨Ø§Ø¨Ø§Ù‹ ØµØ­ÙŠØ­Ø© Ù…Ø«Ù„ Ø¹Ø¯Ù… Ø§Ù„Ø¯ÙØ¹ØŒ Ø£Ùˆ Ø§Ù†ØªÙ‡Ø§Ùƒ Ø§Ù„Ø¹Ù‚Ø¯ØŒ Ø£Ùˆ Ø­Ø§Ø¬Ø© Ø§Ù„Ù…Ø§Ù„Ùƒ Ù„Ù„Ø§Ø³ØªØ®Ø¯Ø§Ù… Ø§Ù„Ø´Ø®ØµÙŠ."),
  ("complaint",
   "In Egypt, to file a legal complaint: 1) Determine the appropriate court (Primary Court for civil matters, Criminal Court for crimes), 2) Prepare a written complaint (da'wa) with facts and evidence, 3) File at the court clerk's office with required documents, 4) Pay court fees (varies by case value), 5) Serve the complaint to defendant through court bailiff. Egyptian courts follow civil law procedures. Consider consulting an Egyptian lawyer as procedures can be complex.",
   "ÙÙŠ Ù…ØµØ±ØŒ Ù„ØªÙ‚Ø¯ÙŠÙ… Ø´ÙƒÙˆÙ‰ Ù‚Ø§Ù†ÙˆÙ†ÙŠØ©: 1) ØªØ­Ø¯ÙŠØ¯ Ø§Ù„Ù…Ø­ÙƒÙ…Ø© Ø§Ù„Ù…Ù†Ø§Ø³Ø¨Ø© (Ø§Ù„Ù…Ø­ÙƒÙ…Ø© Ø§Ù„Ø§Ø¨ØªØ¯Ø§Ø¦ÙŠØ© Ù„Ù„Ù…Ø³Ø§Ø¦Ù„ Ø§Ù„Ù…Ø¯Ù†ÙŠØ©ØŒ Ù…Ø­ÙƒÙ…Ø© Ø§Ù„Ø¬Ù†Ø­/Ø§Ù„Ø¬Ù†Ø§ÙŠØ§Øª Ù„Ù„Ø¬Ø±Ø§Ø¦Ù…)ØŒ 2) Ø¥Ø¹Ø¯Ø§Ø¯ Ø¯Ø¹ÙˆÙ‰ Ù…ÙƒØªÙˆØ¨Ø© Ø¨Ø§Ù„Ø­Ù‚Ø§Ø¦Ù‚ ÙˆØ§Ù„Ø£Ø¯Ù„Ø©ØŒ 3) ØªÙ‚Ø¯ÙŠÙ…Ù‡Ø§ ÙÙŠ Ù…ÙƒØªØ¨ ÙƒØ§ØªØ¨ Ø§Ù„Ù…Ø­ÙƒÙ…Ø© Ù…Ø¹ Ø§Ù„Ù…Ø³ØªÙ†Ø¯Ø§Øª Ø§Ù„Ù…Ø·Ù„ÙˆØ¨Ø©ØŒ 4) Ø¯ÙØ¹ Ø§Ù„Ø±Ø³ÙˆÙ… Ø§Ù„Ù‚Ø¶Ø§Ø¦ÙŠØ© (ØªØ®ØªÙ„Ù Ø­Ø³Ø¨ Ù‚ÙŠÙ…Ø© Ø§Ù„Ù‚Ø¶ÙŠØ©)ØŒ 5) Ø¥Ø¨Ù„Ø§Øº Ø§Ù„Ù…Ø¯Ø¹Ù‰ Ø¹Ù„ÙŠÙ‡ Ù…Ù† Ø®Ù„Ø§Ù„ Ù…Ø­Ø¶Ø± Ø§Ù„Ù…Ø­ÙƒÙ…Ø©. Ù…Ø­Ø§ÙƒÙ… Ù…ØµØ± ØªØªØ¨Ø¹ Ø¥Ø¬Ø±Ø§Ø¡Ø§Øª Ø§Ù„Ù‚Ø§Ù†ÙˆÙ† Ø§Ù„Ù…Ø¯Ù†ÙŠ. ÙÙƒØ± ÙÙŠ Ø§Ø³ØªØ´Ø§Ø±Ø© Ù…Ø­Ø§Ù…Ù Ù…ØµØ±ÙŠ Ù„Ø£Ù† Ø§Ù„Ø¥Ø¬Ø±Ø§Ø¡Ø§Øª Ù‚Ø¯ ØªÙƒÙˆÙ† Ù…Ø¹Ù‚Ø¯Ø©."),
  ("Ø´ÙƒÙˆÙ‰",
   "In Egypt, to file a legal complaint: 1) Determine the appropriate court (Primary Court for civil matters, Criminal Court for crimes), 2) Prepare a written complaint (da'wa) with facts and evidence, 3) File at the court clerk's office with required documents, 4) Pay court fees (varies by case value), 5) Serve the complaint to defendant through court bailiff. Egyptian courts follow civil law procedures. Consider consulting an Egyptian lawyer as procedures can be complex.",
   "ÙÙŠ Ù…ØµØ±ØŒ Ù„ØªÙ‚Ø¯ÙŠÙ… Ø´ÙƒÙˆÙ‰ Ù‚Ø§Ù†ÙˆÙ†ÙŠØ©: 1) ØªØ­Ø¯ÙŠØ¯ Ø§Ù„Ù…Ø­ÙƒÙ…Ø© Ø§Ù„Ù…Ù†Ø§Ø³Ø¨Ø© (Ø§Ù„Ù…Ø­ÙƒÙ…Ø© Ø§Ù„Ø§Ø¨ØªØ¯Ø§Ø¦ÙŠØ© Ù„Ù„Ù…Ø³Ø§Ø¦Ù„ Ø§Ù„Ù…Ø¯Ù†ÙŠØ©ØŒ Ù…Ø­ÙƒÙ…Ø© Ø§Ù„Ø¬Ù†Ø­/Ø§Ù„Ø¬Ù†Ø§ÙŠØ§Øª Ù„Ù„Ø¬Ø±Ø§Ø¦Ù…)ØŒ 2) Ø¥Ø¹Ø¯Ø§Ø¯ Ø¯Ø¹ÙˆÙ‰ Ù…ÙƒØªÙˆØ¨Ø© Ø¨Ø§Ù„Ø­Ù‚Ø§Ø¦Ù‚ ÙˆØ§Ù„Ø£Ø¯Ù„Ø©ØŒ 3) ØªÙ‚Ø¯ÙŠÙ…Ù‡Ø§ ÙÙŠ Ù…ÙƒØªØ¨ ÙƒØ§ØªØ¨ Ø§Ù„Ù…Ø­ÙƒÙ…Ø© Ù…Ø¹ Ø§Ù„Ù…Ø³ØªÙ†Ø¯Ø§Øª Ø§Ù„Ù…Ø·Ù„ÙˆØ¨Ø©ØŒ 4) Ø¯ÙØ¹ Ø§Ù„Ø±Ø³ÙˆÙ… Ø§Ù„Ù‚Ø¶Ø§Ø¦ÙŠØ© (ØªØ®ØªÙ„Ù Ø­Ø³Ø¨ Ù‚ÙŠÙ…Ø© Ø§Ù„Ù‚Ø¶ÙŠØ©)ØŒ 5) Ø¥Ø¨Ù„Ø§Øº Ø§Ù„Ù…Ø¯Ø¹Ù‰ Ø¹Ù„ÙŠÙ‡ Ù…Ù† Ø®Ù„Ø§Ù„ Ù…Ø­Ø¶Ø± Ø§Ù„Ù…Ø­ÙƒÙ…Ø©. Ù…Ø­Ø§ÙƒÙ… Ù…ØµØ± ØªØªØ¨Ø¹ Ø¥Ø¬Ø±Ø§Ø¡Ø§Øª Ø§Ù„Ù‚Ø§Ù†ÙˆÙ† Ø§Ù„Ù…Ø¯Ù†ÙŠ. ÙÙƒØ± ÙÙŠ Ø§Ø³ØªØ´Ø§Ø±Ø© Ù…Ø­Ø§Ù…Ù Ù…ØµØ±ÙŠ Ù„Ø£Ù† Ø§Ù„Ø¥Ø¬Ø±Ø§Ø¡Ø§Øª Ù‚Ø¯ ØªÙƒÙˆÙ† Ù…Ø¹Ù‚Ø¯Ø©."),
  ("sue",
   "In Egyptian law, before filing a lawsuit (da'wa), consider: 1) Whether you have a valid claim under Egyptian Civil Code, 2) Statute of limitations (usually 15 years for contracts, 3 years for torts), 3) Whether mediation or settlement is possible, 4) Court fees and lawyer costs, 5) Whether you have sufficient evidence. Cases start in Primary Courts, can be appealed to Courts of Appeal, and finally to Court of Cassation. Consult an Egyptian lawyer for specific advice.",
   "ÙÙŠ Ø§Ù„Ù‚Ø§Ù†ÙˆÙ† Ø§Ù„Ù…ØµØ±ÙŠØŒ Ù‚Ø¨Ù„ Ø±ÙØ¹ Ø¯Ø¹ÙˆÙ‰ Ù‚Ø¶Ø§Ø¦ÙŠØ©ØŒ ÙÙƒØ± ÙÙŠ: 1) Ù…Ø§ Ø¥Ø°Ø§ ÙƒØ§Ù† Ù„Ø¯ÙŠÙƒ Ù…Ø·Ø§Ù„Ø¨Ø© ØµØ§Ù„Ø­Ø© ÙˆÙÙ‚ Ø§Ù„Ù‚Ø§Ù†ÙˆÙ† Ø§Ù„Ù…Ø¯Ù†ÙŠ Ø§Ù„Ù…ØµØ±ÙŠØŒ 2) Ù‚Ø§Ù†ÙˆÙ† Ø§Ù„ØªÙ‚Ø§Ø¯Ù… (Ø¹Ø§Ø¯Ø© 15 Ø³Ù†Ø© Ù„Ù„Ø¹Ù‚ÙˆØ¯ØŒ 3 Ø³Ù†ÙˆØ§Øª Ù„Ù„Ù…Ø³Ø¤ÙˆÙ„ÙŠØ© Ø§Ù„ØªÙ‚ØµÙŠØ±ÙŠØ©)ØŒ 3) Ù…Ø§ Ø¥Ø°Ø§ ÙƒØ§Ù† Ø§Ù„ÙˆØ³Ø§Ø·Ø© Ø£Ùˆ Ø§Ù„ØªØ³ÙˆÙŠØ© Ù…Ù…ÙƒÙ†Ø©ØŒ 4) Ø§Ù„Ø±Ø³ÙˆÙ… Ø§Ù„Ù‚Ø¶Ø§Ø¦ÙŠØ© ÙˆØªÙƒØ§Ù„ÙŠÙ Ø§Ù„Ù…Ø­Ø§Ù…ÙŠØŒ 5) Ù…Ø§ Ø¥Ø°Ø§ ÙƒØ§Ù† Ù„Ø¯ÙŠÙƒ Ø£Ø¯Ù„Ø© ÙƒØ§ÙÙŠØ©. Ø§Ù„Ù‚Ø¶Ø§ÙŠØ§ ØªØ¨Ø¯Ø£ ÙÙŠ Ø§Ù„Ù…Ø­Ø§ÙƒÙ… Ø§Ù„Ø§Ø¨ØªØ¯Ø§Ø¦ÙŠØ©ØŒ ÙŠÙ…ÙƒÙ† Ø§Ø³ØªØ¦Ù†Ø§ÙÙ‡Ø§ ÙÙŠ Ù…Ø­Ø§ÙƒÙ… Ø§Ù„Ø§Ø³ØªØ¦Ù†Ø§ÙØŒ ÙˆØ£Ø®ÙŠØ±Ø§Ù‹ ÙÙŠ Ù…Ø­ÙƒÙ…Ø© Ø§Ù„Ù†Ù‚Ø¶. Ø§Ø³ØªØ´Ø± Ù…Ø­Ø§Ù…ÙŠØ§Ù‹ Ù…ØµØ±ÙŠØ§Ù‹ Ù„Ù„Ø­ØµÙˆÙ„ Ø¹Ù„Ù‰ Ù†ØµÙŠØ­Ø© Ù…Ø­Ø¯Ø¯Ø©."),
  ("Ø¯Ø¹ÙˆÙ‰",
   "In Egyptian law, before filing a lawsuit (da'wa), consider: 1) Whether you have a valid claim under Egyptian Civil Code, 2) Statute of limitations (usually 15 years for contracts, 3 years for torts), 3) Whether mediation or settlement is possible, 4) Court fees and lawyer costs, 5) Whether you have sufficient evidence. Cases start in Primary Courts, can be appealed to Courts of Appeal, and finally to Court of Cassation. Consult an Egyptian lawyer for specific advice.",
   "ÙÙŠ Ø§Ù„Ù‚Ø§Ù†ÙˆÙ† Ø§Ù„Ù…ØµØ±ÙŠØŒ Ù‚Ø¨Ù„ Ø±ÙØ¹ Ø¯Ø¹ÙˆÙ‰ Ù‚Ø¶Ø§Ø¦ÙŠØ©ØŒ ÙÙƒØ± ÙÙŠ: 1) Ù…Ø§ Ø¥Ø°Ø§ ÙƒØ§Ù† Ù„Ø¯ÙŠÙƒ Ù…Ø·Ø§Ù„Ø¨Ø© ØµØ§Ù„Ø­Ø© ÙˆÙÙ‚ Ø§Ù„Ù‚Ø§Ù†ÙˆÙ† Ø§Ù„Ù…Ø¯Ù†ÙŠ Ø§Ù„Ù…ØµØ±ÙŠØŒ 2) Ù‚Ø§Ù†ÙˆÙ† Ø§Ù„ØªÙ‚Ø§Ø¯Ù… (Ø¹Ø§Ø¯Ø© 15 Ø³Ù†Ø© Ù„Ù„Ø¹Ù‚ÙˆØ¯ØŒ 3 Ø³Ù†ÙˆØ§Øª Ù„Ù„Ù…Ø³Ø¤ÙˆÙ„ÙŠØ© Ø§Ù„ØªÙ‚ØµÙŠØ±ÙŠØ©)ØŒ 3) Ù…Ø§ Ø¥Ø°Ø§ ÙƒØ§Ù† Ø§Ù„ÙˆØ³Ø§Ø·Ø© Ø£Ùˆ Ø§Ù„ØªØ³ÙˆÙŠØ© Ù…Ù…ÙƒÙ†Ø©ØŒ 4) Ø§Ù„Ø±Ø³ÙˆÙ… Ø§Ù„Ù‚Ø¶Ø§Ø¦ÙŠØ© ÙˆØªÙƒØ§Ù„ÙŠÙ Ø§Ù„Ù…Ø­Ø§Ù…ÙŠØŒ 5) Ù…Ø§ Ø¥Ø°Ø§ ÙƒØ§Ù† Ù„Ø¯ÙŠÙƒ Ø£Ø¯Ù„Ø© ÙƒØ§ÙÙŠØ©. Ø§Ù„Ù‚Ø¶Ø§ÙŠØ§ ØªØ¨Ø¯Ø£ ÙÙŠ Ø§Ù„Ù…Ø­Ø§ÙƒÙ… Ø§Ù„Ø§Ø¨ØªØ¯Ø§Ø¦ÙŠØ©ØŒ ÙŠÙ…ÙƒÙ† Ø§Ø³ØªØ¦Ù†Ø§ÙÙ‡Ø§ ÙÙŠ Ù…Ø­Ø§ÙƒÙ… Ø§Ù„Ø§Ø³ØªØ¦Ù†Ø§ÙØŒ ÙˆØ£Ø®ÙŠØ±Ø§Ù‹ ÙÙŠ Ù…Ø­ÙƒÙ…Ø© Ø§Ù„Ù†Ù‚Ø¶. Ø§Ø³ØªØ´Ø± Ù…Ø­Ø§Ù…ÙŠØ§Ù‹ Ù…ØµØ±ÙŠØ§Ù‹ Ù„Ù„Ø­ØµÙˆÙ„ Ø¹Ù„Ù‰ Ù†ØµÙŠØ­Ø© Ù…Ø­Ø¯Ø¯Ø©."),
  ("civil",
   "Egyptian Civil Code (Law 131/1948) governs private disputes between individuals/organizations. It covers contracts, property, torts, family law (for non-Muslims), and obligations. Civil cases are heard in Primary Courts, with appeals to Courts of Appeal and Court of Cassation. The Code is based on French civil law principles adapted to Egyptian context. Key areas: contract formation, breach of contract, property rights, and compensation for damages.",
   "Ø§Ù„Ù‚Ø§Ù†ÙˆÙ† Ø§Ù„Ù…Ø¯Ù†ÙŠ Ø§Ù„Ù…ØµØ±ÙŠ (Ù‚Ø§Ù†ÙˆÙ† 131/1948) ÙŠØ­ÙƒÙ… Ø§Ù„Ù†Ø²Ø§Ø¹Ø§Øª Ø§Ù„Ø®Ø§ØµØ© Ø¨ÙŠÙ† Ø§Ù„Ø£ÙØ±Ø§Ø¯/Ø§Ù„Ù…Ù†Ø¸Ù…Ø§Øª. ÙŠØ´Ù…Ù„ Ø§Ù„Ø¹Ù‚ÙˆØ¯ØŒ ÙˆØ§Ù„Ù…Ù„ÙƒÙŠØ©ØŒ ÙˆØ§Ù„Ù…Ø³Ø¤ÙˆÙ„ÙŠØ© Ø§Ù„ØªÙ‚ØµÙŠØ±ÙŠØ©ØŒ ÙˆÙ‚Ø§Ù†ÙˆÙ† Ø§Ù„Ø£Ø­ÙˆØ§Ù„ Ø§Ù„Ø´Ø®ØµÙŠØ© (Ù„ØºÙŠØ± Ø§Ù„Ù…Ø³Ù„Ù…ÙŠÙ†)ØŒ ÙˆØ§Ù„Ø§Ù„ØªØ²Ø§Ù…Ø§Øª. Ø§Ù„Ù‚Ø¶Ø§ÙŠØ§ Ø§Ù„Ù…Ø¯Ù†ÙŠØ© ØªÙØ³Ù…Ø¹ ÙÙŠ Ø§Ù„Ù…Ø­Ø§ÙƒÙ… Ø§Ù„Ø§Ø¨ØªØ¯Ø§Ø¦ÙŠØ©ØŒ Ù…Ø¹ Ø§Ù„Ø§Ø³ØªØ¦Ù†Ø§Ù ÙÙŠ Ù…Ø­Ø§ÙƒÙ… Ø§Ù„Ø§Ø³ØªØ¦Ù†Ø§Ù ÙˆÙ…Ø­ÙƒÙ…Ø© Ø§Ù„Ù†Ù‚Ø¶. Ø§Ù„Ù‚Ø§Ù†ÙˆÙ† Ù…Ø¨Ù†ÙŠ Ø¹Ù„Ù‰ Ù…Ø¨Ø§Ø¯Ø¦ Ø§Ù„Ù‚Ø§Ù†ÙˆÙ† Ø§Ù„Ù…Ø¯Ù†ÙŠ Ø§Ù„ÙØ±Ù†Ø³ÙŠ Ø§Ù„Ù…ÙƒÙŠÙØ© Ù„Ù„Ø³ÙŠØ§Ù‚ Ø§Ù„Ù…ØµØ±ÙŠ. Ø§Ù„Ù…Ø¬Ø§Ù„Ø§Øª Ø§Ù„Ø±Ø¦ÙŠØ³ÙŠØ©: ØªÙƒÙˆÙŠÙ† Ø§Ù„Ø¹Ù‚ÙˆØ¯ØŒ ÙˆØ§Ù†ØªÙ‡Ø§Ùƒ Ø§Ù„Ø¹Ù‚ÙˆØ¯ØŒ ÙˆØ­Ù‚ÙˆÙ‚ Ø§Ù„Ù…Ù„ÙƒÙŠØ©ØŒ ÙˆØ§Ù„ØªØ¹ÙˆÙŠØ¶ Ø¹Ù† Ø§Ù„Ø£Ø¶Ø±Ø§Ø±."),
  ("Ù…Ø¯Ù†ÙŠ",
   "Egyptian Civil Code (Law 131/1948) governs private disputes between individuals/organizations. It covers contracts, property, torts, family law (for non-Muslims), and obligations. Civil cases are heard in Primary Courts, with appeals to Courts of Appeal and Court of Cassation. The Code is based on French civil law principles adapted to Egyptian context. Key areas: contract formation, breach of contract, property rights, and compensation for damages.",
   "Ø§Ù„Ù‚Ø§Ù†ÙˆÙ† Ø§Ù„Ù…Ø¯Ù†ÙŠ Ø§Ù„Ù…ØµØ±ÙŠ (Ù‚Ø§Ù†ÙˆÙ† 131/1948) ÙŠØ­ÙƒÙ… Ø§Ù„Ù†Ø²Ø§Ø¹Ø§Øª Ø§Ù„Ø®Ø§ØµØ© Ø¨ÙŠÙ† Ø§Ù„Ø£ÙØ±Ø§Ø¯/Ø§Ù„Ù…Ù†Ø¸Ù…Ø§Øª. ÙŠØ´Ù…Ù„ Ø§Ù„Ø¹Ù‚ÙˆØ¯ØŒ ÙˆØ§Ù„Ù…Ù„ÙƒÙŠØ©ØŒ ÙˆØ§Ù„Ù…Ø³Ø¤ÙˆÙ„ÙŠØ© Ø§Ù„ØªÙ‚ØµÙŠØ±ÙŠØ©ØŒ ÙˆÙ‚Ø§Ù†ÙˆÙ† Ø§Ù„Ø£Ø­ÙˆØ§Ù„ Ø§Ù„Ø´Ø®ØµÙŠØ© (Ù„ØºÙŠØ± Ø§Ù„Ù…Ø³Ù„Ù…ÙŠÙ†)ØŒ ÙˆØ§Ù„Ø§Ù„ØªØ²Ø§Ù…Ø§Øª. Ø§Ù„Ù‚Ø¶Ø§ÙŠØ§ Ø§Ù„Ù…Ø¯Ù†ÙŠØ© ØªÙØ³Ù…Ø¹ ÙÙŠ Ø§Ù„Ù…Ø­Ø§ÙƒÙ… Ø§Ù„Ø§Ø¨ØªØ¯Ø§Ø¦ÙŠØ©ØŒ Ù…Ø¹ Ø§Ù„Ø§Ø³ØªØ¦Ù†Ø§Ù ÙÙŠ Ù…Ø­Ø§ÙƒÙ… Ø§Ù„Ø§Ø³ØªØ¦Ù†Ø§Ù ÙˆÙ…Ø­ÙƒÙ…Ø© Ø§Ù„Ù†Ù‚Ø¶. Ø§Ù„Ù‚Ø§Ù†ÙˆÙ† Ù…Ø¨Ù†ÙŠ Ø¹Ù„Ù‰ Ù…Ø¨Ø§Ø¯Ø¦ Ø§Ù„Ù‚Ø§Ù†ÙˆÙ† Ø§Ù„Ù…Ø¯Ù†ÙŠ Ø§Ù„ÙØ±Ù†Ø³ÙŠ Ø§Ù„Ù…ÙƒÙŠÙØ© Ù„Ù„Ø³ÙŠØ§Ù‚ Ø§Ù„Ù…ØµØ±ÙŠ. Ø§Ù„Ù…Ø¬Ø§Ù„Ø§Øª Ø§Ù„Ø±Ø¦ÙŠØ³ÙŠØ©: ØªÙƒÙˆÙŠÙ† Ø§Ù„Ø¹Ù‚ÙˆØ¯ØŒ ÙˆØ§Ù†ØªÙ‡Ø§Ùƒ Ø§Ù„Ø¹Ù‚ÙˆØ¯ØŒ ÙˆØ­Ù‚ÙˆÙ‚ Ø§Ù„Ù…Ù„ÙƒÙŠØ©ØŒ ÙˆØ§Ù„ØªØ¹ÙˆÙŠØ¶ Ø¹Ù† Ø§Ù„Ø£Ø¶Ø±Ø§Ø±."),
  ("criminal",
   "Egyptian Criminal Code (Law 58/1937) defines crimes and penalties. Crimes are classified as: felonies (Ø¬Ù†Ø§ÙŠØ§Øª) - serious crimes with severe penalties, misdemeanors (Ø¬Ù†Ø­) - less serious crimes, and violations (Ù…Ø®Ø§Ù„ÙØ§Øª) - minor offenses. The Public Prosecution (Ø§Ù„Ù†ÙŠØ§Ø¨Ø© Ø§Ù„Ø¹Ø§Ù…Ø©) investigates and prosecutes crimes. Defendants have rights including: legal representation, presumption of innocence, and fair trial. Penalties range from fines to imprisonment to death penalty (for certain crimes).",
   "Ø§Ù„Ù‚Ø§Ù†ÙˆÙ† Ø§Ù„Ø¬Ù†Ø§Ø¦ÙŠ Ø§Ù„Ù…ØµØ±ÙŠ (Ù‚Ø§Ù†ÙˆÙ† 58/1937) ÙŠØ­Ø¯Ø¯ Ø§Ù„Ø¬Ø±Ø§Ø¦Ù… ÙˆØ§Ù„Ø¹Ù‚ÙˆØ¨Ø§Øª. Ø§Ù„Ø¬Ø±Ø§Ø¦Ù… ØªØµÙ†Ù ÙƒÙ€: Ø¬Ù†Ø§ÙŠØ§Øª - Ø¬Ø±Ø§Ø¦Ù… Ø®Ø·ÙŠØ±Ø© Ø¨Ø¹Ù‚ÙˆØ¨Ø§Øª Ø´Ø¯ÙŠØ¯Ø©ØŒ ÙˆØ¬Ù†Ø­ - Ø¬Ø±Ø§Ø¦Ù… Ø£Ù‚Ù„ Ø®Ø·ÙˆØ±Ø©ØŒ ÙˆÙ…Ø®Ø§Ù„ÙØ§Øª - Ø¬Ø±Ø§Ø¦Ù… Ø¨Ø³ÙŠØ·Ø©. Ø§Ù„Ù†ÙŠØ§Ø¨Ø© Ø§Ù„Ø¹Ø§Ù…Ø© ØªØ­Ù‚Ù‚ ÙˆØªÙ‚Ø§Ø¶ÙŠ Ø§Ù„Ø¬Ø±Ø§Ø¦Ù…. Ù„Ù„Ù…ØªÙ‡Ù…ÙŠÙ† Ø­Ù‚ÙˆÙ‚ ØªØ´Ù…Ù„: Ø§Ù„ØªÙ…Ø«ÙŠÙ„ Ø§Ù„Ù‚Ø§Ù†ÙˆÙ†ÙŠØŒ ÙˆØ§ÙØªØ±Ø§Ø¶ Ø§Ù„Ø¨Ø±Ø§Ø¡Ø©ØŒ ÙˆØ§Ù„Ù…Ø­Ø§ÙƒÙ…Ø© Ø§Ù„Ø¹Ø§Ø¯Ù„Ø©. Ø§Ù„Ø¹Ù‚ÙˆØ¨Ø§Øª ØªØªØ±Ø§ÙˆØ­ Ù…Ù† Ø§Ù„ØºØ±Ø§Ù…Ø§Øª Ø¥Ù„Ù‰ Ø§Ù„Ø³Ø¬Ù† Ø¥Ù„Ù‰ Ø¹Ù‚ÙˆØ¨Ø© Ø§Ù„Ø¥Ø¹Ø¯Ø§Ù… (Ù„Ø¬Ø±Ø§Ø¦Ù… Ù…Ø¹ÙŠÙ†Ø©)."),
  ("Ø¬Ù†Ø§Ø¦ÙŠ",
   "Egyptian Criminal Code (Law 58/1937) defines crimes and penalties. Crimes are classified as: felonies (Ø¬Ù†Ø§ÙŠØ§Øª) - serious crimes with severe penalties, misdemeanors (Ø¬Ù†Ø­) - less serious crimes, and violations (Ù…Ø®Ø§Ù„ÙØ§Øª) - minor offenses. The Public Prosecution (Ø§Ù„Ù†ÙŠØ§Ø¨Ø© Ø§Ù„Ø¹Ø§Ù…Ø©) investigates and prosecutes crimes. Defendants have rights including: legal representation, presumption of innocence, and fair trial. Penalties range from fines to imprisonment to death penalty (for certain crimes).",
   "Ø§Ù„Ù‚Ø§Ù†ÙˆÙ† Ø§Ù„Ø¬Ù†Ø§Ø¦ÙŠ Ø§Ù„Ù…ØµØ±ÙŠ (Ù‚Ø§Ù†ÙˆÙ† 58/1937) ÙŠØ­Ø¯Ø¯ Ø§Ù„Ø¬Ø±Ø§Ø¦Ù… ÙˆØ§Ù„Ø¹Ù‚ÙˆØ¨Ø§Øª. Ø§Ù„Ø¬Ø±Ø§Ø¦Ù… ØªØµÙ†Ù ÙƒÙ€: Ø¬Ù†Ø§ÙŠØ§Øª - Ø¬Ø±Ø§Ø¦Ù… Ø®Ø·ÙŠØ±Ø© Ø¨Ø¹Ù‚ÙˆØ¨Ø§Øª Ø´Ø¯ÙŠØ¯Ø©ØŒ ÙˆØ¬Ù†Ø­ - Ø¬Ø±Ø§Ø¦Ù… Ø£Ù‚Ù„ Ø®Ø·ÙˆØ±Ø©ØŒ ÙˆÙ…Ø®Ø§Ù„ÙØ§Øª - Ø¬Ø±Ø§Ø¦Ù… Ø¨Ø³ÙŠØ·Ø©. Ø§Ù„Ù†ÙŠØ§Ø¨Ø© Ø§Ù„Ø¹Ø§Ù…Ø© ØªØ­Ù‚Ù‚ ÙˆØªÙ‚Ø§Ø¶ÙŠ Ø§Ù„Ø¬Ø±Ø§Ø¦Ù…. Ù„Ù„Ù…ØªÙ‡Ù…ÙŠÙ† Ø­Ù‚ÙˆÙ‚ ØªØ´Ù…Ù„: Ø§Ù„ØªÙ…Ø«ÙŠÙ„ Ø§Ù„Ù‚Ø§Ù†ÙˆÙ†ÙŠØŒ ÙˆØ§ÙØªØ±Ø§Ø¶ Ø§Ù„Ø¨Ø±Ø§Ø¡Ø©ØŒ ÙˆØ§Ù„Ù…Ø­Ø§ÙƒÙ…Ø© Ø§Ù„Ø¹Ø§Ø¯Ù„Ø©. Ø§Ù„Ø¹Ù‚ÙˆØ¨Ø§Øª ØªØªØ±Ø§ÙˆØ­ Ù…Ù† Ø§Ù„ØºØ±Ø§Ù…Ø§Øª Ø¥Ù„Ù‰ Ø§Ù„Ø³Ø¬Ù† Ø¥Ù„Ù‰ Ø¹Ù‚ÙˆØ¨Ø© Ø§Ù„Ø¥Ø¹Ø¯Ø§Ù… (Ù„Ø¬Ø±Ø§Ø¦Ù… Ù…Ø¹ÙŠÙ†Ø©)."),
  ("contract",
   "Under Egyptian Civil Code (Articles 89-200), a valid contract requires: 1) Offer and acceptance (Ø¥ÙŠØ¬Ø§Ø¨ ÙˆÙ‚Ø¨ÙˆÙ„), 2) Legal capacity of parties (age 21 or emancipation), 3) Subject matter (Ù…Ø­Ù„ Ø§Ù„Ø¹Ù‚Ø¯) that is legal and possible, 4) Cause (Ø§Ù„Ø³Ø¨Ø¨) - lawful purpose. Contracts can be written or oral, but certain contracts (real estate, employment over 3 months) must be written. Breach of contract entitles the injured party to damages or specific performance.",
   "ÙˆÙÙ‚ Ø§Ù„Ù‚Ø§Ù†ÙˆÙ† Ø§Ù„Ù…Ø¯Ù†ÙŠ Ø§Ù„Ù…ØµØ±ÙŠ (Ø§Ù„Ù…ÙˆØ§Ø¯ 89-200)ØŒ Ø§Ù„Ø¹Ù‚Ø¯ Ø§Ù„ØµØ§Ù„Ø­ ÙŠØªØ·Ù„Ø¨: 1) Ø§Ù„Ø¥ÙŠØ¬Ø§Ø¨ ÙˆØ§Ù„Ù‚Ø¨ÙˆÙ„ØŒ 2) Ø§Ù„Ø£Ù‡Ù„ÙŠØ© Ø§Ù„Ù‚Ø§Ù†ÙˆÙ†ÙŠØ© Ù„Ù„Ø£Ø·Ø±Ø§Ù (21 Ø³Ù†Ø© Ø£Ùˆ Ø§Ù„ØªØ­Ø±Ø±)ØŒ 3) Ù…Ø­Ù„ Ø§Ù„Ø¹Ù‚Ø¯ - Ù‚Ø§Ù†ÙˆÙ†ÙŠ ÙˆÙ…Ù…ÙƒÙ†ØŒ 4) Ø§Ù„Ø³Ø¨Ø¨ - ØºØ±Ø¶ Ù‚Ø§Ù†ÙˆÙ†ÙŠ. Ø§Ù„Ø¹Ù‚ÙˆØ¯ ÙŠÙ…ÙƒÙ† Ø£Ù† ØªÙƒÙˆÙ† Ù…ÙƒØªÙˆØ¨Ø© Ø£Ùˆ Ø´ÙÙ‡ÙŠØ©ØŒ Ù„ÙƒÙ† Ø¹Ù‚ÙˆØ¯ Ù…Ø¹ÙŠÙ†Ø© (Ø§Ù„Ø¹Ù‚Ø§Ø±Ø§ØªØŒ Ø§Ù„Ø¹Ù…Ù„ Ù„Ø£ÙƒØ«Ø± Ù…Ù† 3 Ø£Ø´Ù‡Ø±) ÙŠØ¬Ø¨ Ø£Ù† ØªÙƒÙˆÙ† Ù…ÙƒØªÙˆØ¨Ø©. Ø§Ù†ØªÙ‡Ø§Ùƒ Ø§Ù„Ø¹Ù‚Ø¯ ÙŠØ¹Ø·ÙŠ Ø§Ù„Ø·Ø±Ù Ø§Ù„Ù…ØªØ¶Ø±Ø± Ø§Ù„Ø­Ù‚ ÙÙŠ Ø§Ù„ØªØ¹ÙˆÙŠØ¶ Ø£Ùˆ Ø§Ù„ØªÙ†ÙÙŠØ° Ø§Ù„Ø¹ÙŠÙ†ÙŠ."),
  ("Ø¹Ù‚Ø¯",
   "Under Egyptian Civil Code (Articles 89-200), a valid contract requires: 1) Offer and acceptance (Ø¥ÙŠØ¬Ø§Ø¨ ÙˆÙ‚Ø¨ÙˆÙ„), 2) Legal capacity of parties (age 21 or emancipation), 3) Subject matter (Ù…Ø­Ù„ Ø§Ù„Ø¹Ù‚Ø¯) that is legal and possible, 4) Cause (Ø§Ù„Ø³Ø¨Ø¨) - lawful purpose. Contracts can be written or oral, but certain contracts (real estate, employment over 3 months) must be written. Breach of contract entitles the injured party to damages or specific performance.",
   "ÙˆÙÙ‚ Ø§Ù„Ù‚Ø§Ù†ÙˆÙ† Ø§Ù„Ù…Ø¯Ù†ÙŠ Ø§Ù„Ù…ØµØ±ÙŠ (Ø§Ù„Ù…ÙˆØ§Ø¯ 89-200)ØŒ Ø§Ù„Ø¹Ù‚Ø¯ Ø§Ù„ØµØ§Ù„Ø­ ÙŠØªØ·Ù„Ø¨: 1) Ø§Ù„Ø¥ÙŠØ¬Ø§Ø¨ ÙˆØ§Ù„Ù‚Ø¨ÙˆÙ„ØŒ 2) Ø§Ù„Ø£Ù‡Ù„ÙŠØ© Ø§Ù„Ù‚Ø§Ù†ÙˆÙ†ÙŠØ© Ù„Ù„Ø£Ø·Ø±Ø§Ù (21 Ø³Ù†Ø© Ø£Ùˆ Ø§Ù„ØªØ­Ø±Ø±)ØŒ 3) Ù…Ø­Ù„ Ø§Ù„Ø¹Ù‚Ø¯ - Ù‚Ø§Ù†ÙˆÙ†ÙŠ ÙˆÙ…Ù…ÙƒÙ†ØŒ 4) Ø§Ù„Ø³Ø¨Ø¨ - ØºØ±Ø¶ Ù‚Ø§Ù†ÙˆÙ†ÙŠ. Ø§Ù„Ø¹Ù‚ÙˆØ¯ ÙŠÙ…ÙƒÙ† Ø£Ù† ØªÙƒÙˆÙ† Ù…ÙƒØªÙˆØ¨Ø© Ø£Ùˆ Ø´ÙÙ‡ÙŠØ©ØŒ Ù„ÙƒÙ† Ø¹Ù‚ÙˆØ¯ Ù…Ø¹ÙŠÙ†Ø© (Ø§Ù„Ø¹Ù‚Ø§Ø±Ø§ØªØŒ Ø§Ù„Ø¹Ù…Ù„ Ù„Ø£ÙƒØ«Ø± Ù…Ù† 3 Ø£Ø´Ù‡Ø±) ÙŠØ¬Ø¨ Ø£Ù† ØªÙƒÙˆÙ† Ù…ÙƒØªÙˆØ¨Ø©. Ø§Ù†ØªÙ‡Ø§Ùƒ Ø§Ù„Ø¹Ù‚Ø¯ ÙŠØ¹Ø·ÙŠ Ø§Ù„Ø·Ø±Ù Ø§Ù„Ù…ØªØ¶Ø±Ø± Ø§Ù„Ø­Ù‚ ÙÙŠ Ø§Ù„ØªØ¹ÙˆÙŠØ¶ Ø£Ùˆ Ø§Ù„ØªÙ†ÙÙŠØ° Ø§Ù„Ø¹ÙŠÙ†ÙŠ."),
  ("agreement",
   "In Egyptian law, agreements (Ø§ØªÙØ§Ù‚Ø§Øª) can be written or oral. However, certain agreements must be in writing: real estate transactions, employment contracts over 3 months, commercial agency agreements, and guarantees. Written agreements are strongly recommended as they provide better evidence. Key elements: clear terms, mutual consent, lawful purpose, and legal capacity. Always have important agreements reviewed by an Egyptian lawyer before signing.",
   "ÙÙŠ Ø§Ù„Ù‚Ø§Ù†ÙˆÙ† Ø§Ù„Ù…ØµØ±ÙŠØŒ Ø§Ù„Ø§ØªÙØ§Ù‚Ø§Øª ÙŠÙ…ÙƒÙ† Ø£Ù† ØªÙƒÙˆÙ† Ù…ÙƒØªÙˆØ¨Ø© Ø£Ùˆ Ø´ÙÙ‡ÙŠØ©. Ù„ÙƒÙ† Ø§ØªÙØ§Ù‚Ø§Øª Ù…Ø¹ÙŠÙ†Ø© ÙŠØ¬Ø¨ Ø£Ù† ØªÙƒÙˆÙ† Ù…ÙƒØªÙˆØ¨Ø©: Ù…Ø¹Ø§Ù…Ù„Ø§Øª Ø§Ù„Ø¹Ù‚Ø§Ø±Ø§ØªØŒ ÙˆØ¹Ù‚ÙˆØ¯ Ø§Ù„Ø¹Ù…Ù„ Ù„Ø£ÙƒØ«Ø± Ù…Ù† 3 Ø£Ø´Ù‡Ø±ØŒ ÙˆØ§ØªÙØ§Ù‚Ø§Øª Ø§Ù„ÙˆÙƒØ§Ù„Ø© Ø§Ù„ØªØ¬Ø§Ø±ÙŠØ©ØŒ ÙˆØ§Ù„Ø¶Ù…Ø§Ù†Ø§Øª. Ø§Ù„Ø§ØªÙØ§Ù‚Ø§Øª Ø§Ù„Ù…ÙƒØªÙˆØ¨Ø© Ù…ÙˆØµÙ‰ Ø¨Ù‡Ø§ Ø¨Ø´Ø¯Ø© Ù„Ø£Ù†Ù‡Ø§ ØªÙˆÙØ± Ø£Ø¯Ù„Ø© Ø£ÙØ¶Ù„. Ø§Ù„Ø¹Ù†Ø§ØµØ± Ø§Ù„Ø±Ø¦ÙŠØ³ÙŠØ©: Ø´Ø±ÙˆØ· ÙˆØ§Ø¶Ø­Ø©ØŒ ÙˆÙ…ÙˆØ§ÙÙ‚Ø© Ù…ØªØ¨Ø§Ø¯Ù„Ø©ØŒ ÙˆØºØ±Ø¶ Ù‚Ø§Ù†ÙˆÙ†ÙŠØŒ ÙˆØ£Ù‡Ù„ÙŠØ© Ù‚Ø§Ù†ÙˆÙ†ÙŠØ©. Ø¯Ø§Ø¦Ù…Ø§Ù‹ Ø§Ø¬Ø¹Ù„ Ù…Ø­Ø§Ù…ÙŠØ§Ù‹ Ù…ØµØ±ÙŠØ§Ù‹ ÙŠØ±Ø§Ø¬Ø¹ Ø§Ù„Ø§ØªÙØ§Ù‚Ø§Øª Ø§Ù„Ù…Ù‡Ù…Ø© Ù‚Ø¨Ù„ Ø§Ù„ØªÙˆÙ‚ÙŠØ¹."),
  ("Ø§ØªÙØ§Ù‚",
   "In Egyptian law, agreements (Ø§ØªÙØ§Ù‚Ø§Øª) can be written or oral. However, certain agreements must be in writing: real estate transactions, employment contracts over 3 months, commercial agency agreements, and guarantees. Written agreements are strongly recommended as they provide better evidence. Key elements: clear terms, mutual consent, lawful purpose, and legal capacity. Always have important agreements reviewed by an Egyptian lawyer before signing.",
   "ÙÙŠ Ø§Ù„Ù‚Ø§Ù†ÙˆÙ† Ø§Ù„Ù…ØµØ±ÙŠØŒ Ø§Ù„Ø§ØªÙØ§Ù‚Ø§Øª ÙŠÙ…ÙƒÙ† Ø£Ù† ØªÙƒÙˆÙ† Ù…ÙƒØªÙˆØ¨Ø© Ø£Ùˆ Ø´ÙÙ‡ÙŠØ©. Ù„ÙƒÙ† Ø§ØªÙØ§Ù‚Ø§Øª Ù…Ø¹ÙŠÙ†Ø© ÙŠØ¬Ø¨ Ø£Ù† ØªÙƒÙˆÙ† Ù…ÙƒØªÙˆØ¨Ø©: Ù…Ø¹Ø§Ù…Ù„Ø§Øª Ø§Ù„Ø¹Ù‚Ø§Ø±Ø§ØªØŒ ÙˆØ¹Ù‚ÙˆØ¯ Ø§Ù„Ø¹Ù…Ù„ Ù„Ø£ÙƒØ«Ø± Ù…Ù† 3 Ø£Ø´Ù‡Ø±ØŒ ÙˆØ§ØªÙØ§Ù‚Ø§Øª Ø§Ù„ÙˆÙƒØ§Ù„Ø© Ø§Ù„ØªØ¬Ø§Ø±ÙŠØ©ØŒ ÙˆØ§Ù„Ø¶Ù…Ø§Ù†Ø§Øª. Ø§Ù„Ø§ØªÙØ§Ù‚Ø§Øª Ø§Ù„Ù…ÙƒØªÙˆØ¨Ø© Ù…ÙˆØµÙ‰ Ø¨Ù‡Ø§ Ø¨Ø´Ø¯Ø© Ù„Ø£Ù†Ù‡Ø§ ØªÙˆÙØ± Ø£Ø¯Ù„Ø© Ø£ÙØ¶Ù„. Ø§Ù„Ø¹Ù†Ø§ØµØ± Ø§Ù„Ø±Ø¦ÙŠØ³ÙŠØ©: Ø´Ø±ÙˆØ· ÙˆØ§Ø¶Ø­Ø©ØŒ ÙˆÙ…ÙˆØ§ÙÙ‚Ø© Ù…ØªØ¨Ø§Ø¯Ù„Ø©ØŒ ÙˆØºØ±Ø¶ Ù‚Ø§Ù†ÙˆÙ†ÙŠØŒ ÙˆØ£Ù‡Ù„ÙŠØ© Ù‚Ø§Ù†ÙˆÙ†ÙŠØ©. Ø¯Ø§Ø¦Ù…Ø§Ù‹ Ø§Ø¬Ø¹Ù„ Ù…Ø­Ø§Ù…ÙŠØ§Ù‹ Ù…ØµØ±ÙŠØ§Ù‹ ÙŠØ±Ø§Ø¬Ø¹ Ø§Ù„Ø§ØªÙØ§Ù‚Ø§Øª Ø§Ù„Ù…Ù‡Ù…Ø© Ù‚Ø¨Ù„ Ø§Ù„ØªÙˆÙ‚ÙŠØ¹."),
  ("rights",
   "The Egyptian Constitution of 2014 guarantees fundamental rights including: equality before the law, freedom of belief and expression, right to education and healthcare, right to property, right to work, freedom of assembly and association, privacy rights, and right to fair trial. These rights are protected by the Constitutional Court. Violations can be challenged through constitutional petitions. For specific questions about your rights under Egyptian law, consult an Egyptian constitutional lawyer.",
   "Ø¯Ø³ØªÙˆØ± Ù…ØµØ± 2014 ÙŠØ¶Ù…Ù† Ø§Ù„Ø­Ù‚ÙˆÙ‚ Ø§Ù„Ø£Ø³Ø§Ø³ÙŠØ© Ø¨Ù…Ø§ ÙÙŠ Ø°Ù„Ùƒ: Ø§Ù„Ù…Ø³Ø§ÙˆØ§Ø© Ø£Ù…Ø§Ù… Ø§Ù„Ù‚Ø§Ù†ÙˆÙ†ØŒ ÙˆØ­Ø±ÙŠØ© Ø§Ù„Ø§Ø¹ØªÙ‚Ø§Ø¯ ÙˆØ§Ù„ØªØ¹Ø¨ÙŠØ±ØŒ ÙˆØ§Ù„Ø­Ù‚ ÙÙŠ Ø§Ù„ØªØ¹Ù„ÙŠÙ… ÙˆØ§Ù„Ø±Ø¹Ø§ÙŠØ© Ø§Ù„ØµØ­ÙŠØ©ØŒ ÙˆØ§Ù„Ø­Ù‚ ÙÙŠ Ø§Ù„Ù…Ù„ÙƒÙŠØ©ØŒ ÙˆØ§Ù„Ø­Ù‚ ÙÙŠ Ø§Ù„Ø¹Ù…Ù„ØŒ ÙˆØ­Ø±ÙŠØ© Ø§Ù„ØªØ¬Ù…Ø¹ ÙˆØ§Ù„Ø¬Ù…Ø¹ÙŠØ§ØªØŒ ÙˆØ­Ù‚ÙˆÙ‚ Ø§Ù„Ø®ØµÙˆØµÙŠØ©ØŒ ÙˆØ§Ù„Ø­Ù‚ ÙÙŠ Ø§Ù„Ù…Ø­Ø§ÙƒÙ…Ø© Ø§Ù„Ø¹Ø§Ø¯Ù„Ø©. Ù‡Ø°Ù‡ Ø§Ù„Ø­Ù‚ÙˆÙ‚ Ù…Ø­Ù…ÙŠØ© Ù…Ù† Ù‚Ø¨Ù„ Ø§Ù„Ù…Ø­ÙƒÙ…Ø© Ø§Ù„Ø¯Ø³ØªÙˆØ±ÙŠØ©. Ø§Ù„Ø§Ù†ØªÙ‡Ø§ÙƒØ§Øª ÙŠÙ…ÙƒÙ† Ø§Ù„Ø·Ø¹Ù† ÙÙŠÙ‡Ø§ Ù…Ù† Ø®Ù„Ø§Ù„ Ø§Ù„Ø·Ø¹ÙˆÙ† Ø§Ù„Ø¯Ø³ØªÙˆØ±ÙŠØ©. Ù„Ù„Ø£Ø³Ø¦Ù„Ø© Ø§Ù„Ù…Ø­Ø¯Ø¯Ø© Ø­ÙˆÙ„ Ø­Ù‚ÙˆÙ‚Ùƒ Ø¨Ù…ÙˆØ¬Ø¨ Ø§Ù„Ù‚Ø§Ù†ÙˆÙ† Ø§Ù„Ù…ØµØ±ÙŠØŒ Ø§Ø³ØªØ´Ø± Ù…Ø­Ø§Ù…ÙŠØ§Ù‹ Ø¯Ø³ØªÙˆØ±ÙŠØ§Ù‹ Ù…ØµØ±ÙŠØ§Ù‹."),
  ("Ø­Ù‚ÙˆÙ‚",
   "The Egyptian Constitution of 2014 guarantees fundamental rights including: equality before the law, freedom of belief and expression, right to education and healthcare, right to property, right to work, freedom of assembly and association, privacy rights, and right to fair trial. These rights are protected by the Constitutional Court. Violations can be challenged through constitutional petitions. For specific questions about your rights under Egyptian law, consult an Egyptian constitutional lawyer.",
   "Ø¯Ø³ØªÙˆØ± Ù…ØµØ± 2014 ÙŠØ¶Ù…Ù† Ø§Ù„Ø­Ù‚ÙˆÙ‚ Ø§Ù„Ø£Ø³Ø§Ø³ÙŠØ© Ø¨Ù…Ø§ ÙÙŠ Ø°Ù„Ùƒ: Ø§Ù„Ù…Ø³Ø§ÙˆØ§Ø© Ø£Ù…Ø§Ù… Ø§Ù„Ù‚Ø§Ù†ÙˆÙ†ØŒ ÙˆØ­Ø±ÙŠØ© Ø§Ù„Ø§Ø¹ØªÙ‚Ø§Ø¯ ÙˆØ§Ù„ØªØ¹Ø¨ÙŠØ±ØŒ ÙˆØ§Ù„Ø­Ù‚ ÙÙŠ Ø§Ù„ØªØ¹Ù„ÙŠÙ… ÙˆØ§Ù„Ø±Ø¹Ø§ÙŠØ© Ø§Ù„ØµØ­ÙŠØ©ØŒ ÙˆØ§Ù„Ø­Ù‚ ÙÙŠ Ø§Ù„Ù…Ù„ÙƒÙŠØ©ØŒ ÙˆØ§Ù„Ø­Ù‚ ÙÙŠ Ø§Ù„Ø¹Ù…Ù„ØŒ ÙˆØ­Ø±ÙŠØ© Ø§Ù„ØªØ¬Ù…Ø¹ ÙˆØ§Ù„Ø¬Ù…Ø¹ÙŠØ§ØªØŒ ÙˆØ­Ù‚ÙˆÙ‚ Ø§Ù„Ø®ØµÙˆØµÙŠØ©ØŒ ÙˆØ§Ù„Ø­Ù‚ ÙÙŠ Ø§Ù„Ù…Ø­Ø§ÙƒÙ…Ø© Ø§Ù„Ø¹Ø§Ø¯Ù„Ø©. Ù‡Ø°Ù‡ Ø§Ù„Ø­Ù‚ÙˆÙ‚ Ù…Ø­Ù…ÙŠØ© Ù…Ù† Ù‚Ø¨Ù„ Ø§Ù„Ù…Ø­ÙƒÙ…Ø© Ø§Ù„Ø¯Ø³ØªÙˆØ±ÙŠØ©. Ø§Ù„Ø§Ù†ØªÙ‡Ø§ÙƒØ§Øª ÙŠÙ…ÙƒÙ† Ø§Ù„Ø·Ø¹Ù† ÙÙŠÙ‡Ø§ Ù…Ù† Ø®Ù„Ø§Ù„ Ø§Ù„Ø·Ø¹ÙˆÙ† Ø§Ù„Ø¯Ø³ØªÙˆØ±ÙŠØ©. Ù„Ù„Ø£Ø³Ø¦Ù„Ø© Ø§Ù„Ù…Ø­Ø¯Ø¯Ø© Ø­ÙˆÙ„ Ø­Ù‚ÙˆÙ‚Ùƒ Ø¨Ù…ÙˆØ¬Ø¨ Ø§Ù„Ù‚Ø§Ù†ÙˆÙ† Ø§Ù„Ù…ØµØ±ÙŠØŒ Ø§Ø³ØªØ´Ø± Ù…Ø­Ø§Ù…ÙŠØ§Ù‹ Ø¯Ø³ØªÙˆØ±ÙŠØ§Ù‹ Ù…ØµØ±ÙŠØ§Ù‹."),
  ("lawyer",
   "In Egypt, you may need a lawyer (Ù…Ø­Ø§Ù…ÙŠ) for: criminal charges, civil lawsuits, commercial disputes, real estate transactions, family law matters (marriage, divorce, inheritance), labor disputes, administrative appeals, and drafting legal documents. Lawyers must be registered with the Egyptian Bar Association (Ù†Ù‚Ø§Ø¨Ø© Ø§Ù„Ù…Ø­Ø§Ù…ÙŠÙ†). Many lawyers offer initial consultations. For urgent matters, contact the Bar Association or a legal aid organization.",
   "ÙÙŠ Ù…ØµØ±ØŒ Ù‚Ø¯ ØªØ­ØªØ§Ø¬ Ù…Ø­Ø§Ù…ÙŠØ§Ù‹ (Ù…Ø­Ø§Ù…ÙŠ) Ù„Ù€: Ø§Ù„ØªÙ‡Ù… Ø§Ù„Ø¬Ù†Ø§Ø¦ÙŠØ©ØŒ ÙˆØ§Ù„Ø¯Ø¹Ø§ÙˆÙ‰ Ø§Ù„Ù…Ø¯Ù†ÙŠØ©ØŒ ÙˆØ§Ù„Ù†Ø²Ø§Ø¹Ø§Øª Ø§Ù„ØªØ¬Ø§Ø±ÙŠØ©ØŒ ÙˆÙ…Ø¹Ø§Ù…Ù„Ø§Øª Ø§Ù„Ø¹Ù‚Ø§Ø±Ø§ØªØŒ ÙˆÙ…Ø³Ø§Ø¦Ù„ Ù‚Ø§Ù†ÙˆÙ† Ø§Ù„Ø£Ø­ÙˆØ§Ù„ Ø§Ù„Ø´Ø®ØµÙŠØ© (Ø§Ù„Ø²ÙˆØ§Ø¬ØŒ Ø§Ù„Ø·Ù„Ø§Ù‚ØŒ Ø§Ù„Ù…ÙŠØ±Ø§Ø«)ØŒ ÙˆÙ†Ø²Ø§Ø¹Ø§Øª Ø§Ù„Ø¹Ù…Ù„ØŒ ÙˆØ§Ù„Ø·Ø¹ÙˆÙ† Ø§Ù„Ø¥Ø¯Ø§Ø±ÙŠØ©ØŒ ÙˆØ¥Ø¹Ø¯Ø§Ø¯ Ø§Ù„ÙˆØ«Ø§Ø¦Ù‚ Ø§Ù„Ù‚Ø§Ù†ÙˆÙ†ÙŠØ©. Ø§Ù„Ù…Ø­Ø§Ù…ÙˆÙ† ÙŠØ¬Ø¨ Ø£Ù† ÙŠÙƒÙˆÙ†ÙˆØ§ Ù…Ø³Ø¬Ù„ÙŠÙ† ÙÙŠ Ù†Ù‚Ø§Ø¨Ø© Ø§Ù„Ù…Ø­Ø§Ù…ÙŠÙ† Ø§Ù„Ù…ØµØ±ÙŠØ©. Ø§Ù„Ø¹Ø¯ÙŠØ¯ Ù…Ù† Ø§Ù„Ù…Ø­Ø§Ù…ÙŠÙ† ÙŠÙ‚Ø¯Ù…ÙˆÙ† Ø§Ø³ØªØ´Ø§Ø±Ø§Øª Ø£ÙˆÙ„ÙŠØ©. Ù„Ù„Ù…Ø³Ø§Ø¦Ù„ Ø§Ù„Ø¹Ø§Ø¬Ù„Ø©ØŒ Ø§ØªØµÙ„ Ø¨Ù†Ù‚Ø§Ø¨Ø© Ø§Ù„Ù…Ø­Ø§Ù…ÙŠÙ† Ø£Ùˆ Ù…Ù†Ø¸Ù…Ø© Ø§Ù„Ù…Ø³Ø§Ø¹Ø¯Ø© Ø§Ù„Ù‚Ø§Ù†ÙˆÙ†ÙŠØ©."),
  ("Ù…Ø­Ø§Ù…ÙŠ",
   "In Egypt, you may need a lawyer (Ù…Ø­Ø§Ù…ÙŠ) for: criminal charges, civil lawsuits, commercial disputes, real estate transactions, family law matters (marriage, divorce, inheritance), labor disputes, administrative appeals, and drafting legal documents. Lawyers must be registered with the Egyptian Bar Association (Ù†Ù‚Ø§Ø¨Ø© Ø§Ù„Ù…Ø­Ø§Ù…ÙŠÙ†). Many lawyers offer initial consultations. For urgent matters, contact the Bar Association or a legal aid organization.",
   "ÙÙŠ Ù…ØµØ±ØŒ Ù‚Ø¯ ØªØ­ØªØ§Ø¬ Ù…Ø­Ø§Ù…ÙŠØ§Ù‹ (Ù…Ø­Ø§Ù…ÙŠ) Ù„Ù€: Ø§Ù„ØªÙ‡Ù… Ø§Ù„Ø¬Ù†Ø§Ø¦ÙŠØ©ØŒ ÙˆØ§Ù„Ø¯Ø¹Ø§ÙˆÙ‰ Ø§Ù„Ù…Ø¯Ù†ÙŠØ©ØŒ ÙˆØ§Ù„Ù†Ø²Ø§Ø¹Ø§Øª Ø§Ù„ØªØ¬Ø§Ø±ÙŠØ©ØŒ ÙˆÙ…Ø¹Ø§Ù…Ù„Ø§Øª Ø§Ù„Ø¹Ù‚Ø§Ø±Ø§ØªØŒ ÙˆÙ…Ø³Ø§Ø¦Ù„ Ù‚Ø§Ù†ÙˆÙ† Ø§Ù„Ø£Ø­ÙˆØ§Ù„ Ø§Ù„Ø´Ø®ØµÙŠØ© (Ø§Ù„Ø²ÙˆØ§Ø¬ØŒ Ø§Ù„Ø·Ù„Ø§Ù‚ØŒ Ø§Ù„Ù…ÙŠØ±Ø§Ø«)ØŒ ÙˆÙ†Ø²Ø§Ø¹Ø§Øª Ø§Ù„Ø¹Ù…Ù„ØŒ ÙˆØ§Ù„Ø·Ø¹ÙˆÙ† Ø§Ù„Ø¥Ø¯Ø§Ø±ÙŠØ©ØŒ ÙˆØ¥Ø¹Ø¯Ø§Ø¯ Ø§Ù„ÙˆØ«Ø§Ø¦Ù‚ Ø§Ù„Ù‚Ø§Ù†ÙˆÙ†ÙŠØ©. Ø§Ù„Ù…Ø­Ø§Ù…ÙˆÙ† ÙŠØ¬Ø¨ Ø£Ù† ÙŠÙƒÙˆÙ†ÙˆØ§ Ù…Ø³Ø¬Ù„ÙŠÙ† ÙÙŠ Ù†Ù‚Ø§Ø¨Ø© Ø§Ù„Ù…Ø­Ø§Ù…ÙŠÙ† Ø§Ù„Ù…ØµØ±ÙŠØ©. Ø§Ù„Ø¹Ø¯ÙŠØ¯ Ù…Ù† Ø§Ù„Ù…Ø­Ø§Ù…ÙŠÙ† ÙŠÙ‚Ø¯Ù…ÙˆÙ† Ø§Ø³ØªØ´Ø§Ø±Ø§Øª Ø£ÙˆÙ„ÙŠØ©. Ù„Ù„Ù…Ø³Ø§Ø¦Ù„ Ø§Ù„Ø¹Ø§Ø¬Ù„Ø©ØŒ Ø§ØªØµÙ„ Ø¨Ù†Ù‚Ø§Ø¨Ø© Ø§Ù„Ù…Ø­Ø§Ù…ÙŠÙ† Ø£Ùˆ Ù…Ù†Ø¸Ù…Ø© Ø§Ù„Ù…Ø³Ø§Ø¹Ø¯Ø© Ø§Ù„Ù‚Ø§Ù†ÙˆÙ†ÙŠØ©."),
  ("Ù…Ø­Ø§Ù…",
   "In Egypt, you may need a lawyer (Ù…Ø­Ø§Ù…ÙŠ) for: criminal charges, civil lawsuits, commercial disputes, real estate transactions, family law matters (marriage, divorce, inheritance), labor disputes, administrative appeals, and drafting legal documents. Lawyers must be registered with the Egyptian Bar Association (Ù†Ù‚Ø§Ø¨Ø© Ø§Ù„Ù…Ø­Ø§Ù…ÙŠÙ†). Many lawyers offer initial consultations. For urgent matters, contact the Bar Association or a legal aid organization.",
   "ÙÙŠ Ù…ØµØ±ØŒ Ù‚Ø¯ ØªØ­ØªØ§Ø¬ Ù…Ø­Ø§Ù…ÙŠØ§Ù‹ (Ù…Ø­Ø§Ù…ÙŠ) Ù„Ù€: Ø§Ù„ØªÙ‡Ù… Ø§Ù„Ø¬Ù†Ø§Ø¦ÙŠØ©ØŒ ÙˆØ§Ù„Ø¯Ø¹Ø§ÙˆÙ‰ Ø§Ù„Ù…Ø¯Ù†ÙŠØ©ØŒ ÙˆØ§Ù„Ù†Ø²Ø§Ø¹Ø§Øª Ø§Ù„ØªØ¬Ø§Ø±ÙŠØ©ØŒ ÙˆÙ…Ø¹Ø§Ù…Ù„Ø§Øª Ø§Ù„Ø¹Ù‚Ø§Ø±Ø§ØªØŒ ÙˆÙ…Ø³Ø§Ø¦Ù„ Ù‚Ø§Ù†ÙˆÙ† Ø§Ù„Ø£Ø­ÙˆØ§Ù„ Ø§Ù„Ø´Ø®ØµÙŠØ© (Ø§Ù„Ø²ÙˆØ§Ø¬ØŒ Ø§Ù„Ø·Ù„Ø§Ù‚ØŒ Ø§Ù„Ù…ÙŠØ±Ø§Ø«)ØŒ ÙˆÙ†Ø²Ø§Ø¹Ø§Øª Ø§Ù„Ø¹Ù…Ù„ØŒ ÙˆØ§Ù„Ø·Ø¹ÙˆÙ† Ø§Ù„Ø¥Ø¯Ø§Ø±ÙŠØ©ØŒ ÙˆØ¥Ø¹Ø¯Ø§Ø¯ Ø§Ù„ÙˆØ«Ø§Ø¦Ù‚ Ø§Ù„Ù‚Ø§Ù†ÙˆÙ†ÙŠØ©. Ø§Ù„Ù…Ø­Ø§Ù…ÙˆÙ† ÙŠØ¬Ø¨ Ø£Ù† ÙŠÙƒÙˆÙ†ÙˆØ§ Ù…Ø³Ø¬Ù„ÙŠÙ† ÙÙŠ Ù†Ù‚Ø§Ø¨Ø© Ø§Ù„Ù…Ø­Ø§Ù…ÙŠÙ† Ø§Ù„Ù…ØµØ±ÙŠØ©. Ø§Ù„Ø¹Ø¯ÙŠØ¯ Ù…Ù† Ø§Ù„Ù…Ø­Ø§Ù…ÙŠÙ† ÙŠÙ‚Ø¯Ù…ÙˆÙ† Ø§Ø³ØªØ´Ø§Ø±Ø§Øª Ø£ÙˆÙ„ÙŠØ©. Ù„Ù„Ù…Ø³Ø§Ø¦Ù„ Ø§Ù„Ø¹Ø§Ø¬Ù„Ø©ØŒ Ø§ØªØµÙ„ Ø¨Ù†Ù‚Ø§Ø¨Ø© Ø§Ù„Ù…Ø­Ø§Ù…ÙŠÙ† Ø£Ùˆ Ù…Ù†Ø¸Ù…Ø© Ø§Ù„Ù…Ø³Ø§Ø¹Ø¯Ø© Ø§Ù„Ù‚Ø§Ù†ÙˆÙ†ÙŠØ©."),
  ("legal",
   "Egyptian legal matters are governed by the Constitution of 2014 and various codes: Civil Code, Criminal Code, Commercial Code, Labor Law, Personal Status Law, and specialized laws. The legal system follows civil law principles. While I can provide general information about Egyptian law, specific legal advice should come from a licensed Egyptian attorney registered with the Bar Association. For urgent matters, contact a lawyer or legal aid organization immediately.",
   "Ø§Ù„Ù…Ø³Ø§Ø¦Ù„ Ø§Ù„Ù‚Ø§Ù†ÙˆÙ†ÙŠØ© Ø§Ù„Ù…ØµØ±ÙŠØ© ÙŠØ­ÙƒÙ…Ù‡Ø§ Ø¯Ø³ØªÙˆØ± 2014 ÙˆÙ‚ÙˆØ§Ù†ÙŠÙ† Ù…Ø®ØªÙ„ÙØ©: Ø§Ù„Ù‚Ø§Ù†ÙˆÙ† Ø§Ù„Ù…Ø¯Ù†ÙŠØŒ ÙˆØ§Ù„Ù‚Ø§Ù†ÙˆÙ† Ø§Ù„Ø¬Ù†Ø§Ø¦ÙŠØŒ ÙˆØ§Ù„Ù‚Ø§Ù†ÙˆÙ† Ø§Ù„ØªØ¬Ø§Ø±ÙŠØŒ ÙˆÙ‚Ø§Ù†ÙˆÙ† Ø§Ù„Ø¹Ù…Ù„ØŒ ÙˆÙ‚Ø§Ù†ÙˆÙ† Ø§Ù„Ø£Ø­ÙˆØ§Ù„ Ø§Ù„Ø´Ø®ØµÙŠØ©ØŒ ÙˆÙ‚ÙˆØ§Ù†ÙŠÙ† Ù…ØªØ®ØµØµØ©. Ø§Ù„Ù†Ø¸Ø§Ù… Ø§Ù„Ù‚Ø§Ù†ÙˆÙ†ÙŠ ÙŠØªØ¨Ø¹ Ù…Ø¨Ø§Ø¯Ø¦ Ø§Ù„Ù‚Ø§Ù†ÙˆÙ† Ø§Ù„Ù…Ø¯Ù†ÙŠ. Ø¨ÙŠÙ†Ù…Ø§ ÙŠÙ…ÙƒÙ†Ù†ÙŠ ØªÙ‚Ø¯ÙŠÙ… Ù…Ø¹Ù„ÙˆÙ…Ø§Øª Ø¹Ø§Ù…Ø© Ø¹Ù† Ø§Ù„Ù‚Ø§Ù†ÙˆÙ† Ø§Ù„Ù…ØµØ±ÙŠØŒ ÙŠØ¬Ø¨ Ø£Ù† ØªØ£ØªÙŠ Ø§Ù„Ù†ØµÙŠØ­Ø© Ø§Ù„Ù‚Ø§Ù†ÙˆÙ†ÙŠØ© Ø§Ù„Ù…Ø­Ø¯Ø¯Ø© Ù…Ù† Ù…Ø­Ø§Ù…Ù Ù…ØµØ±ÙŠ Ù…Ø±Ø®Øµ Ù…Ø³Ø¬Ù„ ÙÙŠ Ù†Ù‚Ø§Ø¨Ø© Ø§Ù„Ù…Ø­Ø§Ù…ÙŠÙ†. Ù„Ù„Ù…Ø³Ø§Ø¦Ù„ Ø§Ù„Ø¹Ø§Ø¬Ù„Ø©ØŒ Ø§ØªØµÙ„ Ø¨Ù…Ø­Ø§Ù…Ù Ø£Ùˆ Ù…Ù†Ø¸Ù…Ø© Ù…Ø³Ø§Ø¹Ø¯Ø© Ù‚Ø§Ù†ÙˆÙ†ÙŠØ© ÙÙˆØ±Ø§Ù‹."),
  ("Ù‚Ø§Ù†ÙˆÙ†ÙŠ",
   "Egyptian legal matters are governed by the Constitution of 2014 and various codes: Civil Code, Criminal Code, Commercial Code, Labor Law, Personal Status Law, and specialized laws. The legal system follows civil law principles. While I can provide general information about Egyptian law, specific legal advice should come from a licensed Egyptian attorney registered with the Bar Association. For urgent matters, contact a lawyer or legal aid organization immediately.",
   "Ø§Ù„Ù…Ø³Ø§Ø¦Ù„ Ø§Ù„Ù‚Ø§Ù†ÙˆÙ†ÙŠØ© Ø§Ù„Ù…ØµØ±ÙŠØ© ÙŠØ­ÙƒÙ…Ù‡Ø§ Ø¯Ø³ØªÙˆØ± 2014 ÙˆÙ‚ÙˆØ§Ù†ÙŠÙ† Ù…Ø®ØªÙ„ÙØ©: Ø§Ù„Ù‚Ø§Ù†ÙˆÙ† Ø§Ù„Ù…Ø¯Ù†ÙŠØŒ ÙˆØ§Ù„Ù‚Ø§Ù†ÙˆÙ† Ø§Ù„Ø¬Ù†Ø§Ø¦ÙŠØŒ ÙˆØ§Ù„Ù‚Ø§Ù†ÙˆÙ† Ø§Ù„ØªØ¬Ø§Ø±ÙŠØŒ ÙˆÙ‚Ø§Ù†ÙˆÙ† Ø§Ù„Ø¹Ù…Ù„ØŒ ÙˆÙ‚Ø§Ù†ÙˆÙ† Ø§Ù„Ø£Ø­ÙˆØ§Ù„ Ø§Ù„Ø´Ø®ØµÙŠØ©ØŒ ÙˆÙ‚ÙˆØ§Ù†ÙŠÙ† Ù…ØªØ®ØµØµØ©. Ø§Ù„Ù†Ø¸Ø§Ù… Ø§Ù„Ù‚Ø§Ù†ÙˆÙ†ÙŠ ÙŠØªØ¨Ø¹ Ù…Ø¨Ø§Ø¯Ø¦ Ø§Ù„Ù‚Ø§Ù†ÙˆÙ† Ø§Ù„Ù…Ø¯Ù†ÙŠ. Ø¨ÙŠÙ†Ù…Ø§ ÙŠÙ…ÙƒÙ†Ù†ÙŠ ØªÙ‚Ø¯ÙŠÙ… Ù…Ø¹Ù„ÙˆÙ…Ø§Øª Ø¹Ø§Ù…Ø© Ø¹Ù† Ø§Ù„Ù‚Ø§Ù†ÙˆÙ† Ø§Ù„Ù…ØµØ±ÙŠØŒ ÙŠØ¬Ø¨ Ø£Ù† ØªØ£ØªÙŠ Ø§Ù„Ù†ØµÙŠØ­Ø© Ø§Ù„Ù‚Ø§Ù†ÙˆÙ†ÙŠØ© Ø§Ù„Ù…Ø­Ø¯Ø¯Ø© Ù…Ù† Ù…Ø­Ø§Ù…Ù Ù…ØµØ±ÙŠ Ù…Ø±Ø®Øµ Ù…Ø³Ø¬Ù„ ÙÙŠ Ù†Ù‚Ø§Ø¨Ø© Ø§Ù„Ù…Ø­Ø§Ù…ÙŠÙ†. Ù„Ù„Ù…Ø³Ø§Ø¦Ù„ Ø§Ù„Ø¹Ø§Ø¬Ù„Ø©ØŒ Ø§ØªØµÙ„ Ø¨Ù…Ø­Ø§Ù…Ù Ø£Ùˆ Ù…Ù†Ø¸Ù…Ø© Ù…Ø³Ø§Ø¹Ø¯Ø© Ù‚Ø§Ù†ÙˆÙ†ÙŠØ© ÙÙˆØ±Ø§Ù‹.")
]


/-- A turn in the OpenAI `messages` array. -/
structure ChatMsg where
  role : String
  content : String
deriving Repr, DecidableEq, Inhabited

/-- A row of the `users` table. -/
structure UserRow where
  id : Nat
  name : String
  email : String
  password : String
  created_at : Nat
deriving Repr, DecidableEq

/-- A row of the `conversations` table. -/
structure ConversationRow where
  id : Nat
  user_id : String
  title : String
  created_at : Nat
  updated_at : Nat
deriving Repr, DecidableEq

/-- A row of the `messages` table. -/
structure MessageRow where
  id : Nat
  conversation_id : Nat
  role : String
  content : String
  file_info : Option String
  created_at : Nat
  updated_at : Nat
deriving Repr, DecidableEq

/-- A row of the `bookings` table.  `appointment_date` keeps the request's
date string, exactly as the INSERT stores it. -/
structure BookingRow where
  id : Nat
  user_id : String
  lawyer_id : Nat
  lawyer_name : String
  lawyer_specialty : String
  client_name : String
  client_email : String
  client_phone : String
  appointment_date : String
  appointment_time : String
  case_description : String
  status : String
  created_at : Nat
deriving Repr, DecidableEq

/-- The SQLite database: the four tables, one AUTOINCREMENT counter per table,
and the value `CURRENT_TIMESTAMP` takes during the request being modelled. -/
structure DB where
  users : List UserRow
  conversations : List ConversationRow
  messages : List MessageRow
  bookings : List BookingRow
  nextUserId : Nat
  nextConversationId : Nat
  nextMessageId : Nat
  nextBookingId : Nat
  now : Nat
deriving Repr, DecidableEq

/-- The express session state for one client. -/
structure Session where
  userId : Option String
  userEmail : Option String
  userName : Option String
  isGuest : Bool
deriving Repr, DecidableEq

/-- A route's outcome: a 200 JSON payload, or `res.status(code).json(message)`. -/
inductive HttpResponse (α : Type) where
  | ok : α → HttpResponse α
  | err : Nat → String → HttpResponse α
deriving Repr, DecidableEq

/-- Insert into a sorted list, keeping earlier elements first on ties (the
stable sort backing the SQL ORDER BY clauses of the embedding). -/
def orderedInsertBy {α : Type} (le : α → α → Bool) (a : α) : List α → List α
  | [] => [a]
  | b :: l => if le a b then a :: b :: l else b :: orderedInsertBy le a l

/-- Stable insertion sort by a boolean comparison. -/
def insertionSortBy {α : Type} (le : α → α → Bool) : List α → List α
  | [] => []
  | a :: l => orderedInsertBy le a (insertionSortBy le l)

/-- `ORDER BY updated_at DESC` of GET /api/chats. -/
def sortByUpdatedDesc (l : List ConversationRow) : List ConversationRow :=
  insertionSortBy (fun a b => decide (b.updated_at ≤ a.updated_at)) l

/-- `ORDER BY created_at ASC` of the message queries. -/
def sortByCreatedAsc (l : List MessageRow) : List MessageRow :=
  insertionSortBy (fun a b => decide (a.created_at ≤ b.created_at)) l

/-- `ORDER BY appointment_date DESC, appointment_time DESC` of GET /api/bookings. -/
def sortBookingsDesc (l : List BookingRow) : List BookingRow :=
  insertionSortBy (fun a b =>
    decide (b.appointment_date < a.appointment_date) ||
    (b.appointment_date == a.appointment_date &&
      decide (b.appointment_time ≤ a.appointment_time))) l

/-- The response body of POST /api/register. -/
structure RegisteredUser where
  id : Nat
  name : String
  email : String
deriving Repr, DecidableEq

/-- POST /api/register: field presence, password confirmation and length,
existing-email check, then insert and session creation.  `hash` stands for
`bcrypt.hash(password, 10)`. -/
def postRegister (hash : String → String) (db : DB) (s : Session)
    (name email password confirmPassword : String) :
    HttpResponse RegisteredUser × DB × Session :=
  if name == "" || email == "" || password == "" || confirmPassword == "" then
    (.err 400 "All fields are required", db, s)
  else if password != confirmPassword then
    (.err 400 "Passwords do not match", db, s)
  else if password.length < 6 then
    (.err 400 "Password must be at least 6 characters", db, s)
  else if (db.users.filter (fun u => u.email == email)).length > 0 then
    (.err 400 "Email already registered", db, s)
  else
    let uid := db.nextUserId
    let db' := { db with
      users := db.users ++ [⟨uid, name, email, hash password, db.now⟩],
      nextUserId := db.nextUserId + 1 }
    let s' := { s with
      userId := some (toString uid)
      userEmail := some email
      userName := some name }
    (.ok ⟨uid, name, email⟩, db', s')

/-- The response body of POST /api/guest. -/
structure GuestUser where
  id : String
  name : String
  email : String
  isGuest : Bool
deriving Repr, DecidableEq

/-- POST /api/guest: always succeeds and binds the session to the literal
owner id "guest". -/
def postGuest (s : Session) : HttpResponse GuestUser × Session :=
  (.ok ⟨"guest", "Guest User", "guest@knowlaw.com", true⟩,
   { s with
     userId := some "guest"
     userEmail := some "guest@knowlaw.com"
     userName := some "Guest User"
     isGuest := true })

/-- GET /api/chats: the caller's conversations, most recently updated first. -/
def getChats (db : DB) (s : Session) : HttpResponse (List ConversationRow) :=
  match s.userId with
  | none => .err 401 "Not authenticated"
  | some userId =>
    .ok (sortByUpdatedDesc (db.conversations.filter (fun c => c.user_id == userId)))

/-- GET /api/chats/:chatId: ownership check, then the conversation with its
messages in creation order. -/
def getChat (db : DB) (s : Session) (chatId : Nat) :
    HttpResponse (ConversationRow × List MessageRow) :=
  match s.userId with
  | none => .err 401 "Not authenticated"
  | some userId =>
    match db.conversations.filter (fun c => c.id == chatId && c.user_id == userId) with
    | [] => .err 404 "Conversation not found"
    | c :: _ =>
      .ok (c, sortByCreatedAsc (db.messages.filter (fun m => m.conversation_id == chatId)))

/-- POST /api/chats: create a conversation, title defaulting to "New Chat". -/
def postChats (db : DB) (s : Session) (title : String) :
    HttpResponse ConversationRow × DB :=
  match s.userId with
  | none => (.err 401 "Not authenticated", db)
  | some userId =>
    let t := if title == "" then "New Chat" else title
    let row : ConversationRow := ⟨db.nextConversationId, userId, t, db.now, db.now⟩
    (.ok row,
     { db with
       conversations := db.conversations ++ [row]
       nextConversationId := db.nextConversationId + 1 })

/-- PUT /api/chats/:chatId: rename, with title trim/presence check and
ownership check. -/
def putChat (db : DB) (s : Session) (chatId : Nat) (title : String) :
    HttpResponse String × DB :=
  match s.userId with
  | none => (.err 401 "Not authenticated", db)
  | some userId =>
    if jsTrim title == "" then (.err 400 "Title is required", db)
    else if (db.conversations.filter
        (fun c => c.id == chatId && c.user_id == userId)).length == 0 then
      (.err 404 "Conversation not found", db)
    else
      (.ok "Conversation updated successfully",
       { db with conversations := db.conversations.map (fun (c : ConversationRow) =>
           if c.id == chatId then { c with title := jsTrim title, updated_at := db.now }
           else c) })

/-- DELETE /api/chats/:chatId: ownership check, then delete the conversation;
the `messages` filter models the schema's
`FOREIGN KEY (conversation_id) REFERENCES conversations(id) ON DELETE CASCADE`. -/
def deleteChat (db : DB) (s : Session) (chatId : Nat) :
    HttpResponse String × DB :=
  match s.userId with
  | none => (.err 401 "Not authenticated", db)
  | some userId =>
    if (db.conversations.filter
        (fun c => c.id == chatId && c.user_id == userId)).length == 0 then
      (.err 404 "Conversation not found", db)
    else
      (.ok "Conversation deleted successfully",
       { db with
         conversations := db.conversations.filter (fun c => !(c.id == chatId)),
         messages := db.messages.filter (fun m => !(m.conversation_id == chatId)) })

/-- PUT /api/chats/:chatId/messages/:messageId: content check, conversation
ownership check, then a role-restricted lookup (`role = 'user'` only) and the
update of the message and the conversation timestamp. -/
def putMessage (db : DB) (s : Session) (chatId messageId : Nat) (content : String) :
    HttpResponse String × DB :=
  match s.userId with
  | none => (.err 401 "Not authenticated", db)
  | some userId =>
    if jsTrim content == "" then (.err 400 "Content is required", db)
    else if (db.conversations.filter
        (fun c => c.id == chatId && c.user_id == userId)).length == 0 then
      (.err 404 "Conversation not found", db)
    else if (db.messages.filter (fun m =>
        m.id == messageId && m.conversation_id == chatId && m.role == "user")).length == 0 then
      (.err 404 "Message not found or cannot be edited", db)
    else
      let db1 := { db with messages := db.messages.map (fun (m : MessageRow) =>
        if m.id == messageId then { m with content := jsTrim content, updated_at := db.now }
        else m) }
      let db2 := { db1 with conversations := db1.conversations.map (fun (c : ConversationRow) =>
        if c.id == chatId then { c with updated_at := db.now } else c) }
      (.ok "Message updated successfully", db2)

/-- DELETE /api/chats/:chatId/messages/:messageId: conversation ownership
check, message existence check (no role restriction), delete, timestamp bump. -/
def deleteMessage (db : DB) (s : Session) (chatId messageId : Nat) :
    HttpResponse String × DB :=
  match s.userId with
  | none => (.err 401 "Not authenticated", db)
  | some userId =>
    if (db.conversations.filter
        (fun c => c.id == chatId && c.user_id == userId)).length == 0 then
      (.err 404 "Conversation not found", db)
    else if (db.messages.filter (fun m =>
        m.id == messageId && m.conversation_id == chatId)).length == 0 then
      (.err 404 "Message not found", db)
    else
      let db1 := { db with messages := db.messages.filter (fun m => !(m.id == messageId)) }
      let db2 := { db1 with conversations := db1.conversations.map (fun (c : ConversationRow) =>
        if c.id == chatId then { c with updated_at := db.now } else c) }
      (.ok "Message deleted successfully", db2)

/-- The hard-coded lawyer directory of POST /api/booking. -/
def lawyers : List (Nat × String × String) := [
  (1, "Sarah Johnson", "Criminal Law"),
  (2, "Michael Chen", "Family Law"),
  (3, "Emily Rodriguez", "Corporate Law"),
  (4, "David Thompson", "Personal Injury"),
  (5, "Jennifer Williams", "Real Estate Law"),
  (6, "Robert Martinez", "Immigration Law"),
  (7, "Lisa Anderson", "Employment Law"),
  (8, "James Wilson", "Intellectual Property"),
  (9, "Amanda Taylor", "Estate Planning"),
  (10, "Christopher Brown", "Tax Law"),
  (11, "Maria Garcia", "Bankruptcy Law"),
  (12, "Daniel Lee", "Environmental Law")]

/-- The body of a POST /api/booking request (all columns the JSON carries). -/
structure BookingRequest where
  lawyerId : Nat
  clientName : String
  clientEmail : String
  clientPhone : String
  appointmentDate : String
  appointmentTime : String
  caseDescription : String
deriving Repr, DecidableEq

/-- The confirmation body of POST /api/booking. -/
structure BookingConfirm where
  id : Nat
  lawyerName : String
  appointmentDate : String
  appointmentTime : String
deriving Repr, DecidableEq

/-- POST /api/booking.  `parseDate` stands for `new Date(...)` on the request's
date string and `today` for today's midnight (`new Date()` with hours zeroed);
the handler rejects when `selectedDate < today`. -/
def postBooking (parseDate : String → Int) (today : Int) (db : DB) (s : Session)
    (req : BookingRequest) : HttpResponse BookingConfirm × DB :=
  match s.userId with
  | none => (.err 401 "Not authenticated", db)
  | some userId =>
    if req.lawyerId == 0 || req.clientName == "" || req.clientEmail == "" ||
       req.clientPhone == "" || req.appointmentDate == "" ||
       req.appointmentTime == "" || req.caseDescription == "" then
      (.err 400 "All fields are required", db)
    else if parseDate req.appointmentDate < today then
      (.err 400 "Appointment date must be in the future", db)
    else
      match lawyers.find? (fun e => e.1 == req.lawyerId) with
      | none => (.err 400 "Invalid lawyer selected", db)
      | some e =>
        let row : BookingRow := ⟨db.nextBookingId, userId, req.lawyerId, e.2.1, e.2.2,
          req.clientName, req.clientEmail, req.clientPhone, req.appointmentDate,
          req.appointmentTime, req.caseDescription, "pending", db.now⟩
        (.ok ⟨db.nextBookingId, e.2.1, req.appointmentDate, req.appointmentTime⟩,
         { db with
           bookings := db.bookings ++ [row]
           nextBookingId := db.nextBookingId + 1 })

/-- GET /api/bookings: the caller's bookings, by appointment date and time
descending. -/
def getBookings (db : DB) (s : Session) : HttpResponse (List BookingRow) :=
  match s.userId with
  | none => .err 401 "Not authenticated"
  | some userId =>
    .ok (sortBookingsDesc (db.bookings.filter (fun b => b.user_id == userId)))

/-- The `/pdf|doc|docx|txt|jpg|jpeg|png/i` regex `.test` of the multer
`fileFilter`: the (already lowercased) input need only CONTAIN one of the
alternatives somewhere. -/
def allowedTypesTest (s : String) : Bool :=
  jsIncludes s "pdf" || jsIncludes s "doc" || jsIncludes s "docx" ||
  jsIncludes s "txt" || jsIncludes s "jpg" || jsIncludes s "jpeg" ||
  jsIncludes s "png"

/-- The mimetype leniency checks of the multer `fileFilter`. -/
def hasValidMimetypeOf (mimetype : String) : Bool :=
  jsIncludes mimetype "pdf" || jsIncludes mimetype "msword" ||
  jsIncludes mimetype "wordprocessingml" || jsIncludes mimetype "text/plain" ||
  jsIncludes mimetype "image/jpeg" || jsIncludes mimetype "image/jpg" ||
  jsIncludes mimetype "image/png"

/-- The rejection message of the multer `fileFilter`, naming the file. -/
def fileFilterError (f : FileDesc) : String :=
  "File type not allowed. Only PDF, DOC, DOCX, TXT, JPG, JPEG, and PNG files are allowed. Received: "
    ++ f.originalname ++ " (" ++ jsToLowerCase f.mimetype ++ ")"

/-- The multer `fileFilter`: accept when the extension passes the regex test
OR the mimetype looks valid. -/
def fileFilter (f : FileDesc) : Except String Unit :=
  let extname := extnamePart f.originalname
  let mimetype := jsToLowerCase f.mimetype
  if allowedTypesTest extname || hasValidMimetypeOf mimetype then .ok ()
  else .error (fileFilterError f)

instance : DecidableEq (Except String Unit) := fun a b =>
  match a, b with
  | .ok x, .ok y => isTrue (by cases x; cases y; rfl)
  | .error x, .error y => if h : x = y then isTrue (by rw [h]) else isFalse (by simp [h])
  | .ok _, .error _ => isFalse (by simp)
  | .error _, .ok _ => isFalse (by simp)

/-- The outcome of the multer upload middleware on POST /api/chat. -/
inductive UploadOutcome where
  | accepted
  | limitFileSize
  | limitFileCount
  | filterError (msg : String)
deriving Repr, DecidableEq

/-- The multer pipeline over the request's files in order, with
`limits: fileSize 10*1024*1024, files 10` and the `fileFilter` above: the file
count limit fires when an eleventh file starts; otherwise each file passes the
filter and then the size limit. -/
def processFiles : Nat → List FileDesc → UploadOutcome
  | _, [] => .accepted
  | n, f :: fs =>
    if n ≥ 10 then .limitFileCount
    else
      match fileFilter f with
      | .error msg => .filterError msg
      | .ok () =>
        if f.size > 10 * 1024 * 1024 then .limitFileSize
        else processFiles (n + 1) fs

/-- The upload error mapping at the top of the POST /api/chat route
(`LIMIT_FILE_SIZE`, `LIMIT_FILE_COUNT`, filter errors). -/
def uploadErrorResponse : UploadOutcome → Option (Nat × String)
  | .accepted => none
  | .limitFileSize => some (400, "File size too large. Maximum size is 10MB per file.")
  | .limitFileCount => some (400, "Too many files. Maximum 10 files allowed.")
  | .filterError msg => some (400, msg)


/-- The `fileInfo` note appended to the stored user message when files are
attached. -/
def fileInfoText (files : List FileDesc) : String :=
  if files.length > 0 then
    "\n\n[User uploaded " ++ toString files.length ++ " file(s): "
      ++ fileNamesJoined files ++ "]"
  else ""

/-- `JSON.stringify(files.map(f => ({name, size, mimetype})))`, stored in the
user message's `file_info` column. -/
def fileInfoJsonOf (files : List FileDesc) : Option String :=
  if files.length > 0 then
    some ("[" ++ String.intercalate "," (files.map (fun f =>
      "\x7b\"name\":\"" ++ f.originalname ++ "\",\"size\":" ++ toString f.size
        ++ ",\"mimetype\":\"" ++ f.mimetype ++ "\"\x7d")) ++ "]")
  else none

/-- The history query of POST /api/chat
(`SELECT role, content FROM messages WHERE conversation_id = ?
ORDER BY created_at ASC LIMIT 10`) followed by the role mapping
(`role === 'user' ? 'user' : 'assistant'`). -/
def loadConversationHistory (db : DB) (conversationId : Nat) : List ChatMsg :=
  let previousMessages :=
    (sortByCreatedAsc (db.messages.filter (fun m => m.conversation_id == conversationId))).take 10
  previousMessages.map (fun m =>
    ⟨if m.role == "user" then "user" else "assistant", m.content⟩)

/-- `messages[messages.length - 1].content += fileInfo` of generateAIResponse. -/
def appendToLast : List ChatMsg → String → List ChatMsg
  | [], _ => []
  | [m], extra => [⟨m.role, m.content ++ extra⟩]
  | m :: ms, extra => m :: appendToLast ms extra

/-- The `messages` array generateAIResponse sends to the OpenAI API: the fixed
system prompt, `conversationHistory.slice(-6)`, and the current user turn
(with the file note appended when files are attached). -/
def buildMessages (userMessage : String) (files : List FileDesc)
    (detectedLang : String) (conversationHistory : List ChatMsg) : List ChatMsg :=
  let recentHistory := jsSliceLast 6 conversationHistory
  let base : List ChatMsg :=
    ⟨"system", systemPrompt⟩ :: (recentHistory ++ [⟨"user", userMessage⟩])
  if files.length > 0 then
    let fileNames := fileNamesJoined files
    let fileInfo :=
      if detectedLang == "ar" then apiFileNoteAr files fileNames
      else apiFileNoteEn files fileNames
    appendToLast base fileInfo
  else base

/-- `responseObj[detectedLang] || responseObj.en` for a table entry, where
`detectedLang` is always "ar" or "en". -/
def langPick (lang en ar : String) : String :=
  if lang == "ar" then (if ar == "" then en else ar) else en

/-- The keyword loop of generateFallbackResponse: the first table entry (in
insertion order) whose keyword occurs in the lowercased message wins. -/
def findKeywordResponse (message lang : String) : Option String :=
  (fallbackResponses.find? (fun e => jsIncludes message e.1)).map
    (fun e => langPick lang e.2.1 e.2.2)

/-- `generateFallbackResponse` from server.js: the file-acknowledgement branch,
the keyword table, the greeting/thanks/help intents, then the generic
paragraph.  (The source tests the keyword `help` alongside the same Arabic
keyword twice.) -/
def generateFallbackResponse (userMessage : String) (files : List FileDesc)
    (detectedLang : String) : String :=
  let message := jsTrim (jsToLowerCase userMessage)
  if files.length > 0 then
    let fileNames := fileNamesJoined files
    if detectedLang == "ar" then fileUploadFallbackAr files fileNames
    else fileUploadFallbackEn files fileNames
  else
    match findKeywordResponse message detectedLang with
    | some r => r
    | none =>
      if jsIncludes message "hello" || jsIncludes message "hi" ||
         jsIncludes message "hey" || jsIncludes message "Ù…Ø±Ø­Ø¨Ø§" ||
         jsIncludes message "Ø§Ù„Ø³Ù„Ø§Ù…" || jsIncludes message "Ø£Ù‡Ù„Ø§" then
        if detectedLang == "ar" then greetingAr else greetingEn
      else if jsIncludes message "thank" || jsIncludes message "Ø´ÙƒØ±" ||
          jsIncludes message "Ù…Ø´ÙƒÙˆØ±" then
        if detectedLang == "ar" then thanksAr else thanksEn
      else if jsIncludes message "help" || jsIncludes message "Ù…Ø³Ø§Ø¹Ø¯Ø©" ||
          jsIncludes message "Ù…Ø³Ø§Ø¹Ø¯Ø©" then
        if detectedLang == "ar" then helpAr else helpEn
      else
        if detectedLang == "ar" then genericAr else genericEn

/-- `generateAIResponse` from server.js: missing/placeholder API key or any
failure of the external call (modelled by `openaiCreate` returning `none`) or
an empty trimmed completion falls back to `generateFallbackResponse`;
otherwise the completion is returned trimmed. -/
def generateAIResponse (apiKey : String)
    (openaiCreate : List ChatMsg → Option String) (userMessage : String)
    (files : List FileDesc) (conversationHistory : List ChatMsg) : String :=
  let detectedLang := detectLanguage userMessage
  if jsTrim apiKey == "" || apiKey == "your-api-key-here" then
    generateFallbackResponse userMessage files detectedLang
  else
    match openaiCreate (buildMessages userMessage files detectedLang conversationHistory) with
    | none => generateFallbackResponse userMessage files detectedLang
    | some content =>
      let aiResponse := jsTrim content
      if aiResponse == "" then generateFallbackResponse userMessage files detectedLang
      else aiResponse

/-- The response body of POST /api/chat. -/
structure ChatReply where
  response : String
  conversationId : Nat
deriving Repr, DecidableEq

/-- The tail of the POST /api/chat handler once a conversation id is in hand:
load history, persist the user turn, bump the conversation timestamp, generate
the reply, persist it with role 'ai', bump the timestamp again. -/
def postChatTurn (db : DB) (message : String) (files : List FileDesc)
    (currentConversationId : Nat) (apiKey : String)
    (openaiCreate : List ChatMsg → Option String) : HttpResponse ChatReply × DB :=
  let fileInfo := fileInfoText files
  let fileInfoJson := fileInfoJsonOf files
  let conversationHistory := loadConversationHistory db currentConversationId
  let userMessageContent := message ++ fileInfo
  let db1 := { db with
    messages := db.messages ++ [(⟨db.nextMessageId, currentConversationId, "user",
      userMessageContent, fileInfoJson, db.now, db.now⟩ : MessageRow)],
    nextMessageId := db.nextMessageId + 1 }
  let db2 := { db1 with conversations := db1.conversations.map (fun (c : ConversationRow) =>
    if c.id == currentConversationId then { c with updated_at := db.now } else c) }
  let userQuery := message ++ fileInfo
  let aiResponse := generateAIResponse apiKey openaiCreate userQuery files conversationHistory
  let db3 := { db2 with
    messages := db2.messages ++ [(⟨db2.nextMessageId, currentConversationId, "ai",
      aiResponse, none, db.now, db.now⟩ : MessageRow)],
    nextMessageId := db2.nextMessageId + 1 }
  let db4 := { db3 with conversations := db3.conversations.map (fun (c : ConversationRow) =>
    if c.id == currentConversationId then { c with updated_at := db.now } else c) }
  (.ok ⟨aiResponse, currentConversationId⟩, db4)

/-- The POST /api/chat handler after the upload middleware: authentication,
input presence, conversation resolve-or-create (note the 403 on the ownership
mismatch), then `postChatTurn`. -/
def postChat (db : DB) (s : Session) (message : String) (files : List FileDesc)
    (conversationId : Option Nat) (apiKey : String)
    (openaiCreate : List ChatMsg → Option String) : HttpResponse ChatReply × DB :=
  match s.userId with
  | none => (.err 401 "Not authenticated", db)
  | some userId =>
    if jsTrim message == "" && files.length == 0 then
      (.err 400 "Message or file is required", db)
    else
      match conversationId with
      | none =>
        let sub := jsSubstringTo message 50
        let title := if sub == "" then "New Chat" else sub
        let cid := db.nextConversationId
        let db0 := { db with
          conversations := db.conversations ++ [(⟨cid, userId, title, db.now, db.now⟩ : ConversationRow)],
          nextConversationId := db.nextConversationId + 1 }
        postChatTurn db0 message files cid apiKey openaiCreate
      | some cid =>
        if (db.conversations.filter
            (fun c => c.id == cid && c.user_id == userId)).length == 0 then
          (.err 403 "Conversation not found or access denied", db)
        else
          postChatTurn db message files cid apiKey openaiCreate

/-- The whole POST /api/chat route: the multer middleware's error mapping in
front of the handler. -/
def postChatRoute (db : DB) (s : Session) (message : String)
    (files : List FileDesc) (conversationId : Option Nat) (apiKey : String)
    (openaiCreate : List ChatMsg → Option String) : HttpResponse ChatReply × DB :=
  match uploadErrorResponse (processFiles 0 files) with
  | some e => (.err e.1 e.2, db)
  | none => postChat db s message files conversationId apiKey openaiCreate

/-! ## Common witness material and helper lemmas -/

/-- A session authenticated as owner `uid`. -/
def sessionOf (uid : String) : Session :=
  ⟨some uid, none, none, false⟩

/-- An empty database state. -/
def emptyDb : DB :=
  ⟨[], [], [], [], 1, 1, 1, 1, 9⟩

/-- A database whose only conversation (id 1) belongs to owner "other". -/
def dbOwnedByOther : DB :=
  ⟨[], [⟨1, "other", "T", 5, 5⟩], [], [], 1, 2, 1, 1, 9⟩

theorem mem_orderedInsertBy {α : Type} (le : α → α → Bool) (a x : α) (l : List α) :
    x ∈ orderedInsertBy le a l ↔ x = a ∨ x ∈ l := by
  induction l with
  | nil => simp [orderedInsertBy]
  | cons b l ih =>
    simp only [orderedInsertBy]
    split
    · simp
    · simp [ih]
      tauto

theorem mem_insertionSortBy {α : Type} (le : α → α → Bool) (x : α) (l : List α) :
    x ∈ insertionSortBy le l ↔ x ∈ l := by
  induction l with
  | nil => simp [insertionSortBy]
  | cons a l ih =>
    simp [insertionSortBy, mem_orderedInsertBy, ih]

/-- C1: every read, update, or delete of a conversation or of a message whose
stored owner differs from the session identity answers 404 Not Found — except
the chat-turn operation, which answers 403 on the very same ownership
mismatch.  (The claim asserts 404 with never a 403; `postChat` refutes that.) -/
theorem ownership_mismatch_statuses (db : DB) (s : Session) (uid : String)
    (chatId mid : Nat) (title content msg : String) (files : List FileDesc)
    (key : String) (ext : List ChatMsg → Option String)
    (hS : s.userId = some uid)
    (hOwn : db.conversations.filter (fun c => c.id == chatId && c.user_id == uid) = [])
    (hTitle : jsTrim title ≠ "") (hContent : jsTrim content ≠ "") (hMsg : jsTrim msg ≠ "") :
    getChat db s chatId = .err 404 "Conversation not found"
    ∧ (putChat db s chatId title).1 = .err 404 "Conversation not found"
    ∧ (deleteChat db s chatId).1 = .err 404 "Conversation not found"
    ∧ (putMessage db s chatId mid content).1 = .err 404 "Conversation not found"
    ∧ (deleteMessage db s chatId mid).1 = .err 404 "Conversation not found"
    ∧ (postChat db s msg files (some chatId) key ext).1
        = .err 403 "Conversation not found or access denied" := by
  have hT : (jsTrim title == "") = false := by simpa using hTitle
  have hC : (jsTrim content == "") = false := by simpa using hContent
  have hM : (jsTrim msg == "") = false := by simpa using hMsg
  refine ⟨?_, ?_, ?_, ?_, ?_, ?_⟩ <;>
    simp [getChat, putChat, deleteChat, putMessage, deleteMessage, postChat,
      hS, hOwn, hT, hC, hM]

/-- C1 witness: the 404/403 statuses at a concrete mismatched database. -/
theorem ownership_mismatch_statuses_witness :
    getChat dbOwnedByOther (sessionOf "me") 1 = .err 404 "Conversation not found"
    ∧ (putChat dbOwnedByOther (sessionOf "me") 1 "t").1 = .err 404 "Conversation not found"
    ∧ (deleteChat dbOwnedByOther (sessionOf "me") 1).1 = .err 404 "Conversation not found"
    ∧ (putMessage dbOwnedByOther (sessionOf "me") 1 1 "c").1 = .err 404 "Conversation not found"
    ∧ (deleteMessage dbOwnedByOther (sessionOf "me") 1 1).1 = .err 404 "Conversation not found"
    ∧ (postChat dbOwnedByOther (sessionOf "me") "hi" [] (some 1) "" (fun _ => none)).1
        = .err 403 "Conversation not found or access denied" :=
  ownership_mismatch_statuses dbOwnedByOther (sessionOf "me") "me" 1 1 "t" "c" "hi" []
    "" (fun _ => none) rfl (by decide) (by decide) (by decide) (by decide)

/-- C1 counterexample: the chat-turn operation given a conversationId owned by
another identity answers 403 Forbidden, not 404 Not Found. -/
theorem chat_turn_foreign_conversation_is_403 :
    (postChat dbOwnedByOther (sessionOf "me") "hi" [] (some 1) "" (fun _ => none)).1
      = .err 403 "Conversation not found or access denied"
    ∧ (403 : Nat) ≠ 404 := by
  exact ⟨by rfl, by decide⟩

/-- Every message row carries role "user" or role "ai" (the two role strings
the INSERTs of server.js ever write). -/
def messageRolesOk (db : DB) : Prop :=
  ∀ m ∈ db.messages, m.role = "user" ∨ m.role = "ai"

/-- The two message rows a chat turn appends. -/
theorem postChatTurn_messages (db : DB) (msg : String) (files : List FileDesc)
    (cid : Nat) (key : String) (ext : List ChatMsg → Option String) :
    (postChatTurn db msg files cid key ext).2.messages
      = db.messages
        ++ [⟨db.nextMessageId, cid, "user", msg ++ fileInfoText files,
             fileInfoJsonOf files, db.now, db.now⟩]
        ++ [⟨db.nextMessageId + 1, cid, "ai",
             generateAIResponse key ext (msg ++ fileInfoText files) files
               (loadConversationHistory db cid), none, db.now, db.now⟩] := rfl

/-- C2 counterexample: the assistant turn persisted by the chat-turn operation
has role "ai", not "assistant". -/
theorem assistant_turn_role_is_ai :
    ((postChat emptyDb (sessionOf "u") "hello" [] none "" (fun _ => none)).2.messages.map
        MessageRow.role) = ["user", "ai"]
    ∧ ("ai" : String) ≠ "assistant" :=
  ⟨by rfl, by decide⟩

/-- C2 (amended): the operations that write or rewrite message rows keep every
stored role equal to "user" or "ai", and a successful chat turn persists its
assistant message with role "ai" as the final row. -/
theorem message_roles_invariant (db : DB) (s : Session) (msg content : String)
    (files : List FileDesc) (cid? : Option Nat) (chatId mid : Nat) (key : String)
    (ext : List ChatMsg → Option String) (h : messageRolesOk db) :
    messageRolesOk (postChat db s msg files cid? key ext).2
    ∧ messageRolesOk (putMessage db s chatId mid content).2
    ∧ messageRolesOk (deleteMessage db s chatId mid).2
    ∧ messageRolesOk (deleteChat db s chatId).2
    ∧ (∀ r, (postChat db s msg files cid? key ext).1 = .ok r →
        ((postChat db s msg files cid? key ext).2.messages.map MessageRow.role).getLast?
          = some "ai") := by
  have hTurn : ∀ (db0 : DB) (cid : Nat), messageRolesOk db0 →
      messageRolesOk (postChatTurn db0 msg files cid key ext).2 := by
    intro db0 cid h0 m hm
    rw [postChatTurn_messages] at hm
    rcases List.mem_append.mp hm with hm' | hm'
    · rcases List.mem_append.mp hm' with h2 | h2
      · exact h0 m h2
      · rw [List.mem_singleton.mp h2]; left; rfl
    · rw [List.mem_singleton.mp hm']; right; rfl
  have hOkTurn : ∀ (db0 : DB) (cid : Nat),
      ((postChatTurn db0 msg files cid key ext).2.messages.map MessageRow.role).getLast?
        = some "ai" := by
    intro db0 cid
    simp [postChatTurn_messages, List.getLast?_concat]
  refine ⟨?_, ?_, ?_, ?_, ?_⟩
  · unfold postChat
    split
    · exact h
    next userId _ =>
      split
      · exact h
      · split
        · exact hTurn _ _ h
        next cid =>
          split
          · exact h
          · exact hTurn _ _ h
  · unfold putMessage
    split
    · exact h
    · split
      · exact h
      · split
        · exact h
        · split
          · exact h
          · intro m hm
            rcases List.mem_map.mp hm with ⟨m0, hm0, rfl⟩
            have hrole : (if m0.id == mid
                then { m0 with content := jsTrim content, updated_at := db.now }
                else m0).role = m0.role := by
              split <;> rfl
            rw [hrole]
            exact h m0 hm0
  · unfold deleteMessage
    split
    · exact h
    · split
      · exact h
      · split
        · exact h
        · intro m hm
          exact h m (List.mem_of_mem_filter hm)
  · unfold deleteChat
    split
    · exact h
    · split
      · exact h
      · intro m hm
        exact h m (List.mem_of_mem_filter hm)
  · intro r hr
    rcases hsu : s.userId with _ | userId
    · simp [postChat, hsu] at hr
    · by_cases hempty : (jsTrim msg == "" && files.length == 0) = true
      · simp [postChat, hsu, hempty] at hr
      · rcases cid? with _ | cid
        · simpa [postChat, hsu, hempty] using hOkTurn _ _
        · by_cases hown : ((db.conversations.filter
              (fun c => c.id == cid && c.user_id == userId)).length == 0) = true
          · simp [postChat, hsu, hempty, hown] at hr
          · simpa [postChat, hsu, hempty, hown] using hOkTurn _ _

/-- C2 witness: the invariant instantiated at a concrete database. -/
theorem message_roles_invariant_witness :
    messageRolesOk (postChat emptyDb (sessionOf "u") "hello" [] none ""
      (fun _ => none)).2 :=
  (message_roles_invariant emptyDb (sessionOf "u") "hello" "c" [] none 1 1 ""
    (fun _ => none) (by intro m hm; simp [emptyDb] at hm)).1

/-- A database with one conversation (id 1, owner "u") holding two messages. -/
def dbWithChat : DB :=
  ⟨[], [⟨1, "u", "T", 5, 5⟩],
   [⟨1, 1, "user", "hi", none, 5, 5⟩, ⟨2, 1, "ai", "yo", none, 6, 6⟩],
   [], 1, 2, 3, 1, 9⟩

/-- C3: deleting an owned conversation succeeds and removes the conversation
row and all of its message rows in the same step: the listing no longer
contains it, reading it is 404, and editing or deleting any message that
belonged to it is 404. -/
theorem delete_conversation_cascade (db : DB) (s : Session) (uid : String) (cid : Nat)
    (hS : s.userId = some uid)
    (hOwn : db.conversations.filter (fun c => c.id == cid && c.user_id == uid) ≠ []) :
    (deleteChat db s cid).1 = .ok "Conversation deleted successfully"
    ∧ (∀ c ∈ (deleteChat db s cid).2.conversations, c.id ≠ cid)
    ∧ (∀ m ∈ (deleteChat db s cid).2.messages, m.conversation_id ≠ cid)
    ∧ (∃ l, getChats (deleteChat db s cid).2 s = .ok l ∧ ∀ c ∈ l, c.id ≠ cid)
    ∧ getChat (deleteChat db s cid).2 s cid = .err 404 "Conversation not found"
    ∧ (∀ mid content, jsTrim content ≠ "" →
        (putMessage (deleteChat db s cid).2 s cid mid content).1
          = .err 404 "Conversation not found")
    ∧ (∀ mid, (deleteMessage (deleteChat db s cid).2 s cid mid).1
          = .err 404 "Conversation not found") := by
  have hlen : ((db.conversations.filter
      (fun c => c.id == cid && c.user_id == uid)).length == 0) = false := by
    have hne : (db.conversations.filter
        (fun c => c.id == cid && c.user_id == uid)).length ≠ 0 :=
      fun hh => hOwn (List.length_eq_zero.mp hh)
    simpa using hne
  have hdel : deleteChat db s cid
      = (.ok "Conversation deleted successfully",
         { db with
           conversations := db.conversations.filter (fun c => !(c.id == cid))
           messages := db.messages.filter (fun m => !(m.conversation_id == cid)) }) := by
    simp [deleteChat, hS, hlen]
  have hconv : ∀ c ∈ (deleteChat db s cid).2.conversations, c.id ≠ cid := by
    rw [hdel]
    intro c hc
    have := List.of_mem_filter hc
    simpa using this
  have hmsg : ∀ m ∈ (deleteChat db s cid).2.messages, m.conversation_id ≠ cid := by
    rw [hdel]
    intro m hm
    have := List.of_mem_filter hm
    simpa using this
  have hnil : (deleteChat db s cid).2.conversations.filter
      (fun c => c.id == cid && c.user_id == uid) = [] := by
    refine List.filter_eq_nil_iff.mpr ?_
    intro c hc
    have := hconv c hc
    simp [this]
  refine ⟨by rw [hdel], hconv, hmsg, ?_, ?_, ?_, ?_⟩
  · refine ⟨sortByUpdatedDesc ((deleteChat db s cid).2.conversations.filter
        (fun c => c.user_id == uid)), by simp [getChats, hS], ?_⟩
    intro c hc
    have hc' : c ∈ (deleteChat db s cid).2.conversations.filter
        (fun c => c.user_id == uid) := by
      simpa [sortByUpdatedDesc, mem_insertionSortBy] using hc
    exact hconv c (List.mem_of_mem_filter hc')
  · simp [getChat, hS, hnil]
  · intro mid content hcontent
    have hC : (jsTrim content == "") = false := by simpa using hcontent
    simp [putMessage, hS, hC, hnil]
  · intro mid
    simp [deleteMessage, hS, hnil]

/-- C3 witness: the cascade at a concrete database and messages. -/
theorem delete_conversation_cascade_witness :
    (deleteChat dbWithChat (sessionOf "u") 1).1 = .ok "Conversation deleted successfully"
    ∧ (deleteChat dbWithChat (sessionOf "u") 1).2.messages = []
    ∧ (putMessage (deleteChat dbWithChat (sessionOf "u") 1).2 (sessionOf "u") 1 1 "x").1
        = .err 404 "Conversation not found" := by
  have h := delete_conversation_cascade dbWithChat (sessionOf "u") "u" 1 rfl (by decide)
  exact ⟨h.1, by rfl, h.2.2.2.2.2.1 1 "x" (by decide)⟩

/-- The full chronological turn list of a conversation (the history query
without its LIMIT), under the same role mapping. -/
def fullChronHistory (db : DB) (cid : Nat) : List ChatMsg :=
  (sortByCreatedAsc (db.messages.filter (fun m => m.conversation_id == cid))).map
    (fun m => ⟨if m.role == "user" then "user" else "assistant", m.content⟩)

/-- Modelled from the spec's words, for comparison: the history as "the LAST
10 prior turns ..., i.e., the 10 most recent messages by creation-time
order". -/
def specLastTenHistory (db : DB) (cid : Nat) : List ChatMsg :=
  jsSliceLast 10 (fullChronHistory db cid)

/-- A conversation with eleven messages, created at times 1..11. -/
def dbElevenMessages : DB :=
  ⟨[], [⟨1, "u", "T", 0, 0⟩],
   [⟨1, 1, "user", "m1", none, 1, 1⟩, ⟨2, 1, "ai", "m2", none, 2, 2⟩,
    ⟨3, 1, "user", "m3", none, 3, 3⟩, ⟨4, 1, "ai", "m4", none, 4, 4⟩,
    ⟨5, 1, "user", "m5", none, 5, 5⟩, ⟨6, 1, "ai", "m6", none, 6, 6⟩,
    ⟨7, 1, "user", "m7", none, 7, 7⟩, ⟨8, 1, "ai", "m8", none, 8, 8⟩,
    ⟨9, 1, "user", "m9", none, 9, 9⟩, ⟨10, 1, "ai", "m10", none, 10, 10⟩,
    ⟨11, 1, "user", "m11", none, 11, 11⟩],
   [], 1, 2, 12, 1, 20⟩

/-- C4 counterexample: with eleven prior messages the history handed to the
generator is m1..m10 (the ten OLDEST turns), not the ten most recent. -/
theorem chat_history_not_most_recent_ten :
    (loadConversationHistory dbElevenMessages 1).map ChatMsg.content
      = ["m1", "m2", "m3", "m4", "m5", "m6", "m7", "m8", "m9", "m10"]
    ∧ loadConversationHistory dbElevenMessages 1 ≠ specLastTenHistory dbElevenMessages 1 := by
  exact ⟨by rfl, by decide⟩

/-- C4 (amended): the history supplied to the generator is the FIRST up-to-10
prior turns in creation order (a prefix of the chronological turn list), and
the delegated strategy then sends the trailing up-to-6 turns of that history
(a suffix), between the system prompt and the current turn. -/
theorem chat_history_first_ten_and_trailing_six (db : DB) (cid : Nat) :
    loadConversationHistory db cid = (fullChronHistory db cid).take 10
    ∧ (loadConversationHistory db cid).length ≤ 10
    ∧ loadConversationHistory db cid <+: fullChronHistory db cid
    ∧ (∀ (userMessage lang : String) (history : List ChatMsg),
        jsSliceLast 6 history <:+ history
        ∧ (jsSliceLast 6 history).length ≤ 6
        ∧ buildMessages userMessage [] lang history
            = ⟨"system", systemPrompt⟩ :: (jsSliceLast 6 history ++ [⟨"user", userMessage⟩])) := by
  have heq : loadConversationHistory db cid = (fullChronHistory db cid).take 10 :=
    List.map_take _ _ _
  refine ⟨heq, ?_, ?_, ?_⟩
  · rw [heq]
    simp [List.length_take]
  · rw [heq]
    exact List.take_prefix _ _
  · intro userMessage lang history
    refine ⟨List.drop_suffix _ _, ?_, rfl⟩
    simp [jsSliceLast]
    omega

theorem str_append_ne_empty_left {a : String} (b : String) (h : a ≠ "") :
    a ++ b ≠ "" := by
  intro hab
  apply h
  have hd := congrArg String.data hab
  rw [String.data_append] at hd
  have h1 : a.data = [] := (List.append_eq_nil.mp (by simpa using hd)).1
  cases a with
  | mk d =>
    have h2 : d = [] := by simpa using h1
    subst h2
    rfl

theorem fallbackResponses_nonempty :
    ∀ e ∈ fallbackResponses, e.2.1 ≠ "" ∧ e.2.2 ≠ "" := by decide

theorem langPick_nonempty (lang en ar : String) (hen : en ≠ "") (har : ar ≠ "") :
    langPick lang en ar ≠ "" := by
  unfold langPick
  split
  · split
    · exact hen
    · exact har
  · exact hen

theorem generateFallbackResponse_nonempty (msg : String) (files : List FileDesc)
    (lang : String) : generateFallbackResponse msg files lang ≠ "" := by
  simp only [generateFallbackResponse]
  split
  · split
    · unfold fileUploadFallbackAr
      repeat refine str_append_ne_empty_left _ ?_
      decide
    · unfold fileUploadFallbackEn
      repeat refine str_append_ne_empty_left _ ?_
      decide
  · cases hfind : findKeywordResponse (jsTrim (jsToLowerCase msg)) lang with
    | some r =>
      simp only [hfind]
      unfold findKeywordResponse at hfind
      rcases Option.map_eq_some'.mp hfind with ⟨e, hfe, hr⟩
      have hmem := List.mem_of_find?_eq_some hfe
      have hne := fallbackResponses_nonempty e hmem
      rw [← hr]
      exact langPick_nonempty lang e.2.1 e.2.2 hne.1 hne.2
    | none =>
      simp only [hfind]
      repeat' split
      all_goals decide

/-- C5: a missing or placeholder API credential, any thrown failure of the
external completion call, or an empty trimmed completion makes the Response
Generator return the Static strategy's output, which is never empty; and with
the external call failing, a valid chat turn still answers 200 with a
non-empty assistant response. -/
theorem chat_falls_back_and_always_answers (key msg : String)
    (files : List FileDesc) (hist : List ChatMsg)
    (ext : List ChatMsg → Option String) (db : DB) (s : Session) (uid : String)
    (hS : s.userId = some uid) (hMsg : jsTrim msg ≠ "")
    (hExtAll : ∀ ms, ext ms = none) :
    generateAIResponse key ext msg files hist
      = generateFallbackResponse msg files (detectLanguage msg)
    ∧ generateAIResponse key ext msg files hist ≠ ""
    ∧ (∀ (ext2 : List ChatMsg → Option String) (s2 : String),
        ext2 (buildMessages msg files (detectLanguage msg) hist) = some s2 →
        jsTrim s2 = "" →
        generateAIResponse key ext2 msg files hist
          = generateFallbackResponse msg files (detectLanguage msg))
    ∧ (∀ ext3 : List ChatMsg → Option String,
        generateAIResponse "" ext3 msg files hist
          = generateFallbackResponse msg files (detectLanguage msg))
    ∧ (∃ reply, (postChat db s msg files none key ext).1 = .ok reply
        ∧ reply.response ≠ "") := by
  have hfb : ∀ (ex : List ChatMsg → Option String),
      (∀ ms, ex ms = none) →
      generateAIResponse key ex msg files hist
        = generateFallbackResponse msg files (detectLanguage msg) := by
    intro ex hex
    simp only [generateAIResponse]
    split
    · rfl
    · simp [hex]
  refine ⟨hfb ext hExtAll, ?_, ?_, ?_, ?_⟩
  · rw [hfb ext hExtAll]
    exact generateFallbackResponse_nonempty msg files (detectLanguage msg)
  · intro ext2 s2 h2 htrim
    simp only [generateAIResponse]
    split
    · rfl
    · simp [h2, htrim]
  · intro ext3
    rfl
  · have hM : (jsTrim msg == "") = false := by simpa using hMsg
    refine ⟨⟨generateAIResponse key ext (msg ++ fileInfoText files) files
        (loadConversationHistory
          { db with
            conversations := db.conversations
              ++ [(⟨db.nextConversationId, uid,
                    (if jsSubstringTo msg 50 == "" then "New Chat" else jsSubstringTo msg 50),
                    db.now, db.now⟩ : ConversationRow)]
            nextConversationId := db.nextConversationId + 1 }
          db.nextConversationId),
      db.nextConversationId⟩, ?_, ?_⟩
    · simp [postChat, hS, hM, postChatTurn]
    · have hfb2 : ∀ (hist2 : List ChatMsg) (msg2 : String),
          generateAIResponse key ext msg2 files hist2
            = generateFallbackResponse msg2 files (detectLanguage msg2) := by
        intro hist2 msg2
        simp only [generateAIResponse]
        split
        · rfl
        · simp [hExtAll]
      rw [hfb2]
      exact generateFallbackResponse_nonempty _ _ _

/-- C5 witness: the fallback equality, its non-emptiness, and the end-to-end
answer at a concrete failing external call. -/
theorem chat_falls_back_witness :
    generateAIResponse "k" (fun _ => none) "hello" [] []
      = generateFallbackResponse "hello" [] (detectLanguage "hello")
    ∧ (∃ reply, (postChat emptyDb (sessionOf "u") "hello" [] none "k"
        (fun _ => none)).1 = .ok reply ∧ reply.response ≠ "") := by
  have h := chat_falls_back_and_always_answers "k" "hello" [] []
    (fun _ => none) emptyDb (sessionOf "u") "u" rfl (by decide) (fun _ => rfl)
  exact ⟨h.1, h.2.2.2.2⟩

theorem filter_map_update (f : MessageRow → MessageRow) (p : MessageRow → Bool)
    (hf : ∀ m, p (f m) = p m) (l : List MessageRow) :
    (l.map f).filter p = (l.filter p).map f := by
  induction l with
  | nil => rfl
  | cons a l ih =>
    simp only [List.map_cons, List.filter_cons, hf a]
    split <;> simp [ih]

/-- C6: editing a message whose role is not `user` (in particular an assistant
turn) always fails without modifying anything; editing an owned `user` message
with non-empty content succeeds, stores the trimmed content, and stamps both
the message and the parent conversation with the current timestamp. -/
theorem edit_restricted_to_user_role (db : DB) (s : Session) (uid : String)
    (cid mid : Nat) (content : String) (m : MessageRow)
    (hS : s.userId = some uid) :
    ((∀ m0 ∈ db.messages, m0.id = mid → m0.role = "assistant") →
      (putMessage db s cid mid content).2 = db
      ∧ ∀ r, (putMessage db s cid mid content).1 ≠ .ok r)
    ∧ (db.conversations.filter (fun c => c.id == cid && c.user_id == uid) ≠ [] →
       db.messages.filter (fun m0 => m0.id == mid) = [m] →
       m.conversation_id = cid → m.role = "user" → jsTrim content ≠ "" →
       (putMessage db s cid mid content).1 = .ok "Message updated successfully"
       ∧ (putMessage db s cid mid content).2.messages.filter (fun m0 => m0.id == mid)
           = [{ m with content := jsTrim content, updated_at := db.now }]
       ∧ (∀ c ∈ (putMessage db s cid mid content).2.conversations,
            c.id = cid → c.updated_at = db.now)) := by
  constructor
  · intro hA
    have hnil : db.messages.filter (fun m0 =>
        m0.id == mid && m0.conversation_id == cid && m0.role == "user") = [] := by
      refine List.filter_eq_nil_iff.mpr ?_
      intro m0 hm0
      by_cases hid : m0.id = mid
      · have hrole := hA m0 hm0 hid
        simp [hrole]
      · simp [hid]
    simp only [putMessage, hS]
    split
    · simp
    · split
      · simp
      · simp [hnil]
  · intro hOwn hMsgFilter hmc hrole hcontent
    have hC : (jsTrim content == "") = false := by simpa using hcontent
    have hlenC : ((db.conversations.filter
        (fun c => c.id == cid && c.user_id == uid)).length == 0) = false := by
      have hne : (db.conversations.filter
          (fun c => c.id == cid && c.user_id == uid)).length ≠ 0 :=
        fun hh => hOwn (List.length_eq_zero.mp hh)
      simpa using hne
    have hmmem : m ∈ db.messages.filter (fun m0 => m0.id == mid) := by
      rw [hMsgFilter]; simp
    have hmid : (m.id == mid) = true := (List.mem_filter.mp hmmem).2
    have hmdb : m ∈ db.messages := List.mem_of_mem_filter hmmem
    have hfilterNe : ((db.messages.filter (fun m0 =>
        m0.id == mid && m0.conversation_id == cid && m0.role == "user")).length == 0)
          = false := by
      have hm' : m ∈ db.messages.filter (fun m0 =>
          m0.id == mid && m0.conversation_id == cid && m0.role == "user") :=
        List.mem_filter.mpr ⟨hmdb, by simp [hmid, hmc, hrole]⟩
      have hne : (db.messages.filter (fun m0 =>
          m0.id == mid && m0.conversation_id == cid && m0.role == "user")).length ≠ 0 := by
        intro hh
        rw [List.length_eq_zero.mp hh] at hm'
        simp at hm'
      simpa using hne
    have heq : putMessage db s cid mid content
        = (.ok "Message updated successfully",
           { db with
             messages := db.messages.map (fun (m0 : MessageRow) =>
               if m0.id == mid then
                 { m0 with content := jsTrim content, updated_at := db.now }
               else m0)
             conversations := db.conversations.map (fun (c : ConversationRow) =>
               if c.id == cid then { c with updated_at := db.now } else c) }) := by
      simp [putMessage, hS, hC, hlenC, hfilterNe]
    have hf : ∀ (m0 : MessageRow), ((if m0.id == mid then
        { m0 with content := jsTrim content, updated_at := db.now }
        else m0).id == mid) = (m0.id == mid) := by
      intro m0
      by_cases hsplit : (m0.id == mid) = true <;> simp [hsplit]
    refine ⟨by rw [heq], ?_, ?_⟩
    · rw [heq]
      show (db.messages.map _).filter _ = _
      rw [filter_map_update _ _ hf, hMsgFilter]
      simp only [List.map_cons, List.map_nil, hmid, if_true]
    · rw [heq]
      intro c hc hcid
      rcases List.mem_map.mp hc with ⟨c0, hc0, rfl⟩
      by_cases hcEq : (c0.id == cid) = true
      · simp [hcEq]
      · rw [if_neg (by simpa using hcEq)] at hcid ⊢
        exact absurd hcid (by simpa using hcEq)

/-- A database whose second message is an assistant turn. -/
def dbWithAssistantMsg : DB :=
  ⟨[], [⟨1, "u", "T", 5, 5⟩],
   [⟨1, 1, "user", "hi", none, 5, 5⟩, ⟨2, 1, "assistant", "yo", none, 6, 6⟩],
   [], 1, 2, 3, 1, 9⟩

/-- C6 witness: both directions at concrete databases. -/
theorem edit_restricted_witness :
    ((putMessage dbWithAssistantMsg (sessionOf "u") 1 2 "new").2 = dbWithAssistantMsg
      ∧ ∀ r, (putMessage dbWithAssistantMsg (sessionOf "u") 1 2 "new").1 ≠ .ok r)
    ∧ (putMessage dbWithChat (sessionOf "u") 1 1 " new ").1
        = .ok "Message updated successfully" := by
  have hA := (edit_restricted_to_user_role dbWithAssistantMsg (sessionOf "u") "u" 1 2 "new"
    ⟨1, 1, "user", "hi", none, 5, 5⟩ rfl).1
  have hB := (edit_restricted_to_user_role dbWithChat (sessionOf "u") "u" 1 1 " new "
    ⟨1, 1, "user", "hi", none, 5, 5⟩ rfl).2
  exact ⟨hA (by decide), (hB (by decide) (by decide) rfl rfl (by decide)).1⟩

/-- A database holding one booking stored under owner "guest". -/
def dbGuestBooking : DB :=
  ⟨[], [], [], [⟨1, "guest", 1, "Sarah Johnson", "Criminal Law", "n", "e", "p",
    "2030-01-01", "10:00", "d", "pending", 5⟩], 1, 1, 1, 2, 9⟩

/-- C7: every guest session is bound to the same literal owner id "guest", so
guest data is shared across guest sessions: a conversation created in one
guest session is returned by the conversation listing of any other guest
session, and any booking stored under owner "guest" is returned by the booking
listing of any guest session. -/
theorem guest_identity_shared (s1 s2 : Session) (db : DB) (title : String) :
    ((postGuest s1).2).userId = some "guest"
    ∧ (∀ conv, (postChats db (postGuest s1).2 title).1 = .ok conv →
        ∃ l, getChats (postChats db (postGuest s1).2 title).2 (postGuest s2).2 = .ok l
          ∧ conv ∈ l)
    ∧ (∀ b ∈ db.bookings, b.user_id = "guest" →
        ∃ lb, getBookings db (postGuest s2).2 = .ok lb ∧ b ∈ lb) := by
  refine ⟨rfl, ?_, ?_⟩
  · intro conv hconv
    have hres : (postChats db (postGuest s1).2 title).1
        = .ok ⟨db.nextConversationId, "guest",
            (if title == "" then "New Chat" else title), db.now, db.now⟩ := rfl
    rw [hres] at hconv
    injection hconv with hconv'
    refine ⟨sortByUpdatedDesc
      (((postChats db (postGuest s1).2 title).2).conversations.filter
        (fun c => c.user_id == "guest")), rfl, ?_⟩
    have hmem : conv ∈ ((postChats db (postGuest s1).2 title).2).conversations.filter
        (fun c => c.user_id == "guest") := by
      apply List.mem_filter.mpr
      refine ⟨?_, by rw [← hconv']; rfl⟩
      show conv ∈ db.conversations ++ [_]
      rw [← hconv']
      simp
    simpa [sortByUpdatedDesc, mem_insertionSortBy] using hmem
  · intro b hb hbg
    refine ⟨sortBookingsDesc (db.bookings.filter (fun b0 => b0.user_id == "guest")),
      rfl, ?_⟩
    have hmem : b ∈ db.bookings.filter (fun b0 => b0.user_id == "guest") :=
      List.mem_filter.mpr ⟨hb, by simp [hbg]⟩
    simpa [sortBookingsDesc, mem_insertionSortBy] using hmem

/-- C7 witness: guest sharing at a concrete database. -/
theorem guest_identity_shared_witness :
    (∃ l, getChats (postChats dbGuestBooking (postGuest ⟨none, none, none, false⟩).2 "T").2
        (postGuest ⟨none, none, none, false⟩).2 = .ok l
      ∧ (⟨1, "guest", "T", 9, 9⟩ : ConversationRow) ∈ l)
    ∧ (∃ lb, getBookings dbGuestBooking (postGuest ⟨none, none, none, false⟩).2 = .ok lb
      ∧ (⟨1, "guest", 1, "Sarah Johnson", "Criminal Law", "n", "e", "p",
          "2030-01-01", "10:00", "d", "pending", 5⟩ : BookingRow) ∈ lb) := by
  have h := guest_identity_shared ⟨none, none, none, false⟩ ⟨none, none, none, false⟩
    dbGuestBooking "T"
  exact ⟨h.2.1 ⟨1, "guest", "T", 9, 9⟩ rfl, h.2.2 _ (by simp [dbGuestBooking]) rfl⟩

/-- C8 counterexample: after registering a@x.com, a second attempt with the
same email but the too-short password "abc" fails with the password-length
message, not the EmailTaken message — so the error is not EmailTaken
"regardless of the password supplied". -/
theorem duplicate_email_short_password_not_emailtaken :
    (postRegister (fun p => p) emptyDb ⟨none, none, none, false⟩
        "Alice" "a@x.com" "secret1" "secret1").1 = .ok ⟨1, "Alice", "a@x.com"⟩
    ∧ (postRegister (fun p => p)
        (postRegister (fun p => p) emptyDb ⟨none, none, none, false⟩
          "Alice" "a@x.com" "secret1" "secret1").2.1
        ⟨none, none, none, false⟩ "Bob" "a@x.com" "abc" "abc").1
      = .err 400 "Password must be at least 6 characters"
    ∧ "Password must be at least 6 characters" ≠ "Email already registered" :=
  ⟨rfl, rfl, by decide⟩

/-- C8 (amended): a registration attempt with an already-registered email
always fails with HTTP 400 and never creates a user row; when the supplied
password passes the local password checks (match and length at least 6, with
the other fields present), the failure is specifically "Email already
registered". -/
theorem duplicate_email_rejected (hash : String → String) (db : DB) (s : Session)
    (name email password confirmPassword : String)
    (hexists : ∃ u ∈ db.users, u.email = email) :
    (∃ msg, (postRegister hash db s name email password confirmPassword).1 = .err 400 msg)
    ∧ (postRegister hash db s name email password confirmPassword).2.1 = db
    ∧ (name ≠ "" → email ≠ "" → password = confirmPassword → 6 ≤ password.length →
        (postRegister hash db s name email password confirmPassword).1
          = .err 400 "Email already registered") := by
  rcases hexists with ⟨u, hu, hue⟩
  have hpos : 0 < (db.users.filter (fun u0 => u0.email == email)).length :=
    List.length_pos.mpr (List.ne_nil_of_mem (List.mem_filter.mpr ⟨hu, by simp [hue]⟩))
  unfold postRegister
  split
  next hfields =>
    refine ⟨⟨_, rfl⟩, rfl, ?_⟩
    intro hname hemail hpw hlen
    simp only [Bool.or_eq_true, beq_iff_eq] at hfields
    rcases hfields with ((h | h) | h) | h
    · exact absurd h hname
    · exact absurd h hemail
    · rw [h] at hlen; simp at hlen
    · rw [hpw, h] at hlen; simp at hlen
  next =>
    split
    next hneq =>
      refine ⟨⟨_, rfl⟩, rfl, ?_⟩
      intro _ _ hpw _
      simp only [bne_iff_ne, ne_eq] at hneq
      exact absurd hpw hneq
    next =>
      split
      next hshort =>
        refine ⟨⟨_, rfl⟩, rfl, ?_⟩
        intro _ _ _ hlen
        omega
      next =>
        exact ⟨⟨_, rfl⟩, rfl, fun _ _ _ _ => rfl⟩

/-- A database holding one registered user. -/
def dbOneUser : DB :=
  ⟨[⟨1, "Alice", "a@x.com", "hsecret1", 5⟩], [], [], [], 2, 1, 1, 1, 9⟩

/-- C8 witness: EmailTaken at a concrete second registration. -/
theorem duplicate_email_rejected_witness :
    (postRegister (fun p => p) dbOneUser ⟨none, none, none, false⟩
        "Bob" "a@x.com" "secret2" "secret2").1 = .err 400 "Email already registered"
    ∧ (postRegister (fun p => p) dbOneUser ⟨none, none, none, false⟩
        "Bob" "a@x.com" "secret2" "secret2").2.1 = dbOneUser := by
  have h := duplicate_email_rejected (fun p => p) dbOneUser ⟨none, none, none, false⟩
    "Bob" "a@x.com" "secret2" "secret2" ⟨⟨1, "Alice", "a@x.com", "hsecret1", 5⟩,
      by simp [dbOneUser], rfl⟩
  exact ⟨h.2.2 (by decide) (by decide) rfl (by decide), h.2.1⟩

/-- Modelled from the spec's words, for comparison: the extension itself must
be a member of the fixed allow-list. -/
def specExtensionAllowed (ext : String) : Bool :=
  ["pdf", "doc", "docx", "txt", "jpg", "jpeg", "png"].contains ext

/-- C9 counterexample: "evil.qpdfq" has extension "qpdfq", which is not in the
allow-list, and a mimetype that does not look valid, yet the filter accepts it
(the regex test only asks that the extension CONTAIN an allowed token). -/
theorem upload_filter_not_allow_list_membership :
    fileFilter ⟨"evil.qpdfq", 1, "application/octet-stream"⟩ = .ok ()
    ∧ specExtensionAllowed (extnamePart "evil.qpdfq") = false
    ∧ hasValidMimetypeOf (jsToLowerCase "application/octet-stream") = false := by
  refine ⟨?_, ?_, ?_⟩ <;> decide

theorem fileFilter_error_form (f : FileDesc) (h : fileFilter f ≠ .ok ()) :
    fileFilter f = .error (fileFilterError f) := by
  by_cases hc : (allowedTypesTest (extnamePart f.originalname)
      || hasValidMimetypeOf (jsToLowerCase f.mimetype)) = true
  · exact absurd (by simp [fileFilter, hc]) h
  · simp [fileFilter, hc]

theorem processFiles_accepted (files : List FileDesc) :
    ∀ n, n + files.length ≤ 10 →
    (∀ g ∈ files, fileFilter g = .ok ()) →
    (∀ g ∈ files, g.size ≤ 10 * 1024 * 1024) →
    processFiles n files = .accepted := by
  induction files with
  | nil => intro n _ _ _; rfl
  | cons f fs ih =>
    intro n hlen hfilters hsizes
    simp only [List.length_cons] at hlen
    have hn : ¬(n ≥ 10) := by omega
    have hsz : ¬(f.size > 10 * 1024 * 1024) := by
      have := hsizes f (List.mem_cons_self f fs)
      omega
    simp only [processFiles, hfilters f (List.mem_cons_self f fs), if_neg hn, if_neg hsz]
    exact ih (n + 1) (by omega)
      (fun g hg => hfilters g (List.mem_cons_of_mem f hg))
      (fun g hg => hsizes g (List.mem_cons_of_mem f hg))

theorem processFiles_count (files : List FileDesc) :
    ∀ n, 10 < n + files.length → n ≤ 10 →
    (∀ g ∈ files, fileFilter g = .ok ()) →
    (∀ g ∈ files, g.size ≤ 10 * 1024 * 1024) →
    processFiles n files = .limitFileCount := by
  induction files with
  | nil =>
    intro n h1 h2 _ _
    simp only [List.length_nil, Nat.add_zero] at h1
    exact absurd h1 (by omega)
  | cons f fs ih =>
    intro n h1 h2 hfilters hsizes
    simp only [List.length_cons] at h1
    by_cases hn : n ≥ 10
    · unfold processFiles
      rw [if_pos hn]
    · have hsz : ¬(f.size > 10 * 1024 * 1024) := by
        have := hsizes f (List.mem_cons_self f fs)
        omega
      simp only [processFiles, hfilters f (List.mem_cons_self f fs), if_neg hn, if_neg hsz]
      exact ih (n + 1) (by omega) (by omega)
        (fun g hg => hfilters g (List.mem_cons_of_mem f hg))
        (fun g hg => hsizes g (List.mem_cons_of_mem f hg))

theorem processFiles_size (files : List FileDesc) :
    ∀ n, n + files.length ≤ 10 →
    (∀ g ∈ files, fileFilter g = .ok ()) →
    (∃ g ∈ files, 10 * 1024 * 1024 < g.size) →
    processFiles n files = .limitFileSize := by
  induction files with
  | nil => intro n _ _ hex; simp at hex
  | cons f fs ih =>
    intro n hlen hfilters hex
    simp only [List.length_cons] at hlen
    have hn : ¬(n ≥ 10) := by omega
    by_cases hsz : f.size > 10 * 1024 * 1024
    · simp only [processFiles, hfilters f (List.mem_cons_self f fs), if_neg hn, if_pos hsz]
    · simp only [processFiles, hfilters f (List.mem_cons_self f fs), if_neg hn, if_neg hsz]
      apply ih (n + 1) (by omega)
        (fun g hg => hfilters g (List.mem_cons_of_mem f hg))
      rcases hex with ⟨g, hg, hgs⟩
      rcases List.mem_cons.mp hg with rfl | hg'
      · exact absurd hgs hsz
      · exact ⟨g, hg', hgs⟩

theorem processFiles_filter_error (files : List FileDesc) :
    ∀ n, n + files.length ≤ 10 →
    (∀ g ∈ files, g.size ≤ 10 * 1024 * 1024) →
    (∃ g ∈ files, fileFilter g ≠ .ok ()) →
    ∃ g ∈ files, processFiles n files = .filterError (fileFilterError g) := by
  induction files with
  | nil => intro n _ _ hex; simp at hex
  | cons f fs ih =>
    intro n hlen hsizes hex
    simp only [List.length_cons] at hlen
    have hn : ¬(n ≥ 10) := by omega
    by_cases hff : fileFilter f = .ok ()
    · have hsz : ¬(f.size > 10 * 1024 * 1024) := by
        have := hsizes f (List.mem_cons_self f fs)
        omega
      have hex' : ∃ g ∈ fs, fileFilter g ≠ .ok () := by
        rcases hex with ⟨g, hg, hne⟩
        rcases List.mem_cons.mp hg with rfl | hg'
        · exact absurd hff hne
        · exact ⟨g, hg', hne⟩
      rcases ih (n + 1) (by omega)
        (fun g hg => hsizes g (List.mem_cons_of_mem f hg)) hex' with ⟨g, hg, heq⟩
      refine ⟨g, List.mem_cons_of_mem f hg, ?_⟩
      simp only [processFiles, hff, if_neg hn, if_neg hsz]
      exact heq
    · refine ⟨f, List.mem_cons_self f fs, ?_⟩
      simp only [processFiles, fileFilter_error_form f hff, if_neg hn]

/-- C9 (amended): a file passes the filter iff its lowercased extension
CONTAINS one of pdf/doc/docx/txt/jpg/jpeg/png or its mimetype looks valid (a
permissive union); the rejection message names the offending file; at most 10
files and at most 10 MB per file are enforced: more than 10 otherwise-clean
files give TooManyFiles, an oversize file gives FileTooLarge, a disallowed
file type gives UnsupportedType carrying that file's message. -/
theorem upload_validation (f : FileDesc) (files : List FileDesc)
    (hcap : files.length ≤ 10) :
    (fileFilter f = .ok () ↔
      (allowedTypesTest (extnamePart f.originalname)
        || hasValidMimetypeOf (jsToLowerCase f.mimetype)) = true)
    ∧ (fileFilter f ≠ .ok () → fileFilter f = .error (fileFilterError f))
    ∧ ((∀ g ∈ files, fileFilter g = .ok ()) →
        (∀ g ∈ files, g.size ≤ 10 * 1024 * 1024) →
        processFiles 0 files = .accepted)
    ∧ (∀ more : List FileDesc, 10 < (files ++ more).length →
        (∀ g ∈ files ++ more, fileFilter g = .ok ()) →
        (∀ g ∈ files ++ more, g.size ≤ 10 * 1024 * 1024) →
        processFiles 0 (files ++ more) = .limitFileCount)
    ∧ ((∀ g ∈ files, fileFilter g = .ok ()) →
        (∃ g ∈ files, 10 * 1024 * 1024 < g.size) →
        processFiles 0 files = .limitFileSize)
    ∧ ((∀ g ∈ files, g.size ≤ 10 * 1024 * 1024) →
        (∃ g ∈ files, fileFilter g ≠ .ok ()) →
        ∃ g ∈ files, processFiles 0 files = .filterError (fileFilterError g)) := by
  refine ⟨?_, fileFilter_error_form f, ?_, ?_, ?_, ?_⟩
  · constructor
    · intro hok
      by_cases hc : (allowedTypesTest (extnamePart f.originalname)
          || hasValidMimetypeOf (jsToLowerCase f.mimetype)) = true
      · exact hc
      · rw [fileFilter_error_form f (by simp [fileFilter, hc])] at hok
        exact absurd hok (by simp)
    · intro hc
      simp [fileFilter, hc]
  · intro h1 h2
    exact processFiles_accepted files 0 (by omega) h1 h2
  · intro more hlen h1 h2
    exact processFiles_count (files ++ more) 0 (by omega) (by omega) h1 h2
  · intro h1 h2
    exact processFiles_size files 0 (by omega) h1 h2
  · intro h1 h2
    exact processFiles_filter_error files 0 (by omega) h1 h2

/-- Eleven copies of a clean file. -/
def elevenFiles : List FileDesc :=
  List.replicate 11 ⟨"a.pdf", 1, "application/pdf"⟩

/-- C9 witness: acceptance, TooManyFiles, FileTooLarge and UnsupportedType at
concrete files. -/
theorem upload_validation_witness :
    (fileFilter ⟨"a.pdf", 1, "application/pdf"⟩ = .ok ())
    ∧ processFiles 0 [⟨"a.pdf", 1, "application/pdf"⟩] = .accepted
    ∧ processFiles 0 elevenFiles = .limitFileCount
    ∧ processFiles 0 [⟨"big.pdf", 10 * 1024 * 1024 + 1, "application/pdf"⟩]
        = .limitFileSize
    ∧ (∃ g ∈ [(⟨"run.exe", 1, "application/x-dosexec"⟩ : FileDesc)],
        processFiles 0 [(⟨"run.exe", 1, "application/x-dosexec"⟩ : FileDesc)]
          = .filterError (fileFilterError g)) := by
  have h1 := upload_validation ⟨"a.pdf", 1, "application/pdf"⟩
    [⟨"a.pdf", 1, "application/pdf"⟩] (by decide)
  have h2 := upload_validation ⟨"a.pdf", 1, "application/pdf"⟩
    (List.replicate 10 ⟨"a.pdf", 1, "application/pdf"⟩) (by decide)
  have h3 := upload_validation ⟨"big.pdf", 10 * 1024 * 1024 + 1, "application/pdf"⟩
    [⟨"big.pdf", 10 * 1024 * 1024 + 1, "application/pdf"⟩] (by decide)
  have h4 := upload_validation ⟨"run.exe", 1, "application/x-dosexec"⟩
    [⟨"run.exe", 1, "application/x-dosexec"⟩] (by decide)
  refine ⟨h1.1.mpr (by decide), ?_, ?_, ?_, ?_⟩
  · exact h1.2.2.1 (by decide) (by decide)
  · have := h2.2.2.2.1 [⟨"a.pdf", 1, "application/pdf"⟩] (by decide) (by decide) (by decide)
    simpa [elevenFiles] using this
  · exact h3.2.2.2.2.1 (by decide)
      ⟨⟨"big.pdf", 10 * 1024 * 1024 + 1, "application/pdf"⟩, by decide, by decide⟩
  · exact h4.2.2.2.2.2 (by decide)
      ⟨⟨"run.exe", 1, "application/x-dosexec"⟩, by decide, by decide⟩

/-- A booking request with every field present and the unknown lawyer id 13. -/
def reqLawyer13 : BookingRequest :=
  ⟨13, "N", "E", "P", "2030-01-01", "10:00", "D"⟩

/-- A booking request with every field present and lawyer id 1. -/
def reqLawyer1 : BookingRequest :=
  ⟨1, "N", "E", "P", "2030-01-01", "10:00", "D"⟩

/-- C10 counterexample: a request with all fields present and a future
appointment date is still NOT created when the lawyer id is unknown (13), so
"created iff the date is today or later" fails as stated. -/
theorem booking_future_date_invalid_lawyer_not_created :
    postBooking (fun _ => (5 : Int)) 0 emptyDb (sessionOf "u") reqLawyer13
      = (.err 400 "Invalid lawyer selected", emptyDb)
    ∧ ¬((5 : Int) < 0) :=
  ⟨rfl, by decide⟩

/-- C10 (amended): with all fields present, a past appointment date is
rejected with the date-validation message and no state change; otherwise the
booking is created (one new row, success) if and only if the lawyer id is one
of the twelve known lawyers, and an unknown lawyer id is a 400 with no state
change. -/
theorem booking_date_and_lawyer_validation (parseDate : String → Int) (today : Int)
    (db : DB) (s : Session) (uid : String) (req : BookingRequest)
    (hS : s.userId = some uid)
    (hfields : req.lawyerId ≠ 0 ∧ req.clientName ≠ "" ∧ req.clientEmail ≠ "" ∧
               req.clientPhone ≠ "" ∧ req.appointmentDate ≠ "" ∧
               req.appointmentTime ≠ "" ∧ req.caseDescription ≠ "") :
    (parseDate req.appointmentDate < today →
      postBooking parseDate today db s req
        = (.err 400 "Appointment date must be in the future", db))
    ∧ (¬ parseDate req.appointmentDate < today →
        (((∃ c, (postBooking parseDate today db s req).1 = .ok c)
          ∧ (postBooking parseDate today db s req).2.bookings.length
              = db.bookings.length + 1)
          ↔ (lawyers.find? (fun e => e.1 == req.lawyerId)).isSome = true))
    ∧ (¬ parseDate req.appointmentDate < today →
        lawyers.find? (fun e => e.1 == req.lawyerId) = none →
        postBooking parseDate today db s req = (.err 400 "Invalid lawyer selected", db)) := by
  obtain ⟨h1, h2, h3, h4, h5, h6, h7⟩ := hfields
  have hb : (req.lawyerId == 0 || req.clientName == "" || req.clientEmail == "" ||
      req.clientPhone == "" || req.appointmentDate == "" ||
      req.appointmentTime == "" || req.caseDescription == "") = false := by
    simp [h1, h2, h3, h4, h5, h6, h7]
  refine ⟨?_, ?_, ?_⟩
  · intro hdate
    simp [postBooking, hS, hb, hdate]
  · intro hdate
    cases hfind : lawyers.find? (fun e => e.1 == req.lawyerId) with
    | none =>
      simp only [postBooking, hS, hb, Bool.false_eq_true, if_false, if_neg hdate, hfind,
        Option.isSome_none]
      constructor
      · rintro ⟨⟨c, hc⟩, _⟩
        exact absurd hc (by simp)
      · intro hfalse
        simp at hfalse
    | some e =>
      simp only [postBooking, hS, hb, Bool.false_eq_true, if_false, if_neg hdate, hfind,
        Option.isSome_some]
      constructor
      · intro _
        trivial
      · intro _
        exact ⟨⟨_, rfl⟩, by simp⟩
  · intro hdate hfind
    simp [postBooking, hS, hb, hdate, hfind]

/-- C10 witness: past date rejected with unchanged state; future date with a
known lawyer creates exactly one row. -/
theorem booking_validation_witness :
    postBooking (fun _ => (-1 : Int)) 0 emptyDb (sessionOf "u") reqLawyer1
      = (.err 400 "Appointment date must be in the future", emptyDb)
    ∧ ((∃ c, (postBooking (fun _ => (5 : Int)) 0 emptyDb (sessionOf "u") reqLawyer1).1
          = .ok c)
       ∧ (postBooking (fun _ => (5 : Int)) 0 emptyDb (sessionOf "u")
            reqLawyer1).2.bookings.length = emptyDb.bookings.length + 1) := by
  have hpast := booking_date_and_lawyer_validation (fun _ => (-1 : Int)) 0 emptyDb
    (sessionOf "u") "u" reqLawyer1 rfl (by decide)
  have hfut := booking_date_and_lawyer_validation (fun _ => (5 : Int)) 0 emptyDb
    (sessionOf "u") "u" reqLawyer1 rfl (by decide)
  exact ⟨hpast.1 (by decide), (hfut.2.1 (by decide)).mpr (by decide)⟩
